import Mathlib

/-!
Verification of the credential and session lifecycle of the auth service
(`src/modules/auth/auth.service.ts`, `src/modules/auth/services/email.service.ts`).

The service state (Prisma rows for users, OTPs and refresh tokens) is embedded
as explicit lists of records; every service method becomes a pure function
`Store → ... → Store × Except AuthError Result` that threads the store through
the same sequence of reads and writes the TypeScript performs.  Times are
absolute milliseconds (`Nat`).  JSON-web-tokens are embedded as records whose
`sig` field says whether the signature verifies under the service secret and
whose `nonce` field distinguishes distinct `sign` calls (distinct iat/payload
instants); `jwtService.verify` succeeds exactly when the signature holds and
the embedded expiry claim has not passed.  Database writes that happen before
an exception is thrown stay in the returned store, matching the absence of a
transaction around the Prisma calls.
-/

namespace AuthSpec

/-- Milliseconds of absolute time, as produced by `Date.now()`. -/
abbrev Millis := Nat

/-- One day in milliseconds. -/
def dayMs : Nat := 86400000

/-- OTP lifetime: 10 minutes in milliseconds (`Date.now() + 600000`). -/
def otpTtlMs : Nat := 600000

/-- Refresh-token lifetime: 7 days. -/
def refreshTtlMs : Nat := 7 * dayMs

/-- User roles of the data model (enum `ADMIN | CUSTOMER`). -/
inductive Role where
  | ADMIN
  | CUSTOMER
deriving DecidableEq, Repr

/-- OTP purposes (enum `LOGIN | VERIFICATION | PASSWORD_RESET`). -/
inductive OtpType where
  | LOGIN
  | VERIFICATION
  | PASSWORD_RESET
deriving DecidableEq, Repr

/-- A refresh-token string: the JWT signed from payload `{ sub, type: 'refresh' }`.
`sig` records whether the signature verifies under the service secret, `exp`
is the expiry claim, and `nonce` distinguishes separate `jwtService.sign`
calls so that distinct signings yield distinct strings. -/
structure RefreshJwt where
  sub : Nat
  exp : Millis
  sig : Bool
  nonce : Nat
deriving DecidableEq, Repr

/-- An access-token string: the JWT signed from payload `{ email, sub, role }`. -/
structure AccessJwt where
  sub : Nat
  email : String
  role : Role
  exp : Millis
deriving DecidableEq, Repr

/-- A `User` row. -/
structure UserRow where
  id : Nat
  email : String
  password : String
  firstName : String
  lastName : String
  role : Role
  isEmailVerified : Bool
  lastLoginAt : Option Millis
deriving DecidableEq, Repr

/-- The non-sensitive user projection: every `UserRow` field except `password`
(the TypeScript spreads `{ password: _, ...result }`). -/
structure SafeUser where
  id : Nat
  email : String
  firstName : String
  lastName : String
  role : Role
  isEmailVerified : Bool
  lastLoginAt : Option Millis
deriving DecidableEq, Repr

/-- Strip the password from a user row. -/
def sanitizeUser (u : UserRow) : SafeUser :=
  { id := u.id, email := u.email, firstName := u.firstName, lastName := u.lastName,
    role := u.role, isEmailVerified := u.isEmailVerified, lastLoginAt := u.lastLoginAt }

/-- An `Otp` row. -/
structure OtpRow where
  id : Nat
  code : Nat
  expiresAt : Millis
  isUsed : Bool
  type : OtpType
  userId : Nat
  createdAt : Millis
deriving DecidableEq, Repr

/-- A `RefreshToken` row. -/
structure RtRow where
  id : Nat
  token : RefreshJwt
  userId : Nat
  expiresAt : Millis
  isRevoked : Bool
  userAgent : Option String
  ipAddress : Option String
  createdAt : Millis
deriving DecidableEq, Repr

/-- The relational store: the three Prisma tables plus the id/nonce supplies
that stand for fresh primary keys and fresh signing instants. -/
structure Store where
  users : List UserRow
  otps : List OtpRow
  refreshTokens : List RtRow
  nextUserId : Nat
  nextOtpId : Nat
  nextRtId : Nat
  nextNonce : Nat
deriving DecidableEq, Repr

/-- The HTTP-level error taxonomy raised by the service (NestJS exceptions,
plus plain `Error` for SMTP failures and `conflict` for completeness of the
taxonomy in §7 of the spec). -/
inductive AuthError where
  | unauthorized (msg : String)
  | badRequest (msg : String)
  | notFound (msg : String)
  | conflict (msg : String)
  | internal (msg : String)
deriving DecidableEq, Repr

/-- Is this error a Conflict error? -/
def AuthError.isConflict : AuthError → Bool
  | .conflict _ => true
  | _ => false

/-- Per-request environment: the bcrypt hasher, the `Math.random()` draw used
for OTP generation, and whether the SMTP transport delivers (a failed
`sendMail` makes the email service throw). -/
structure Env where
  hash : String → String
  rand : Nat
  emailOk : Bool

/-- The 6-digit OTP code `Math.floor(100000 + Math.random() * 900000)`:
`rand % 900000` plays the floored value of `Math.random() * 900000`. -/
def genOtpCode (rand : Nat) : Nat := 100000 + rand % 900000

/-- Does `jwtService.verify` accept this refresh token: the signature must
hold and the expiry claim must not have passed. -/
def jwtVerifyRefresh (tok : RefreshJwt) (now : Millis) : Bool :=
  tok.sig && decide (now < tok.exp)

/-- Registration input (`RegisterDto`). -/
structure RegisterDto where
  email : String
  password : String
  firstName : String
  lastName : String
deriving DecidableEq, Repr

/-- The user projection included in login responses. -/
structure LoginUserView where
  id : Nat
  email : String
  firstName : String
  lastName : String
  role : Role
  isEmailVerified : Bool
deriving DecidableEq, Repr

/-- Result of `login` / `verifyOtp`. -/
structure LoginResult where
  access_token : AccessJwt
  refresh_token : RefreshJwt
  user : LoginUserView
deriving DecidableEq, Repr

/-- Result of `refreshAccessToken`. -/
structure RefreshResult where
  access_token : AccessJwt
  refresh_token : RefreshJwt
deriving DecidableEq, Repr

/-- A `{ message }` result. -/
structure MsgResult where
  message : String
deriving DecidableEq, Repr

/-- Result of `register`. -/
structure RegisterResult where
  message : String
  user : SafeUser
deriving DecidableEq, Repr

/-- AuthService.login: signs an access token (1 day) and a refresh token
(7 days), persists the refresh token row with a 7-day expiry and the device
metadata, and returns both tokens with a user projection.  Never throws. -/
def login (st : Store) (now : Millis) (user : UserRow)
    (userAgent ipAddress : Option String) : Store × LoginResult :=
  let accessToken : AccessJwt :=
    { sub := user.id, email := user.email, role := user.role, exp := now + dayMs }
  let refreshTokenString : RefreshJwt :=
    { sub := user.id, exp := now + refreshTtlMs, sig := true, nonce := st.nextNonce }
  let expiresAt := now + refreshTtlMs
  let row : RtRow :=
    { id := st.nextRtId, token := refreshTokenString, userId := user.id,
      expiresAt := expiresAt, isRevoked := false,
      userAgent := userAgent, ipAddress := ipAddress, createdAt := now }
  let st' : Store :=
    { st with refreshTokens := st.refreshTokens ++ [row],
              nextRtId := st.nextRtId + 1, nextNonce := st.nextNonce + 1 }
  (st', { access_token := accessToken, refresh_token := refreshTokenString,
          user := { id := user.id, email := user.email, firstName := user.firstName,
                    lastName := user.lastName, role := user.role,
                    isEmailVerified := user.isEmailVerified } })

/-- The user row created by `prisma.user.create` during registration.  The
Prisma schema itself is not among the sources; its column defaults follow the
spec's data model (role defaults to CUSTOMER, isEmailVerified to false,
lastLoginAt unset). -/
def newUserRow (st : Store) (env : Env) (dto : RegisterDto) : UserRow :=
  { id := st.nextUserId, email := dto.email, password := env.hash dto.password,
    firstName := dto.firstName, lastName := dto.lastName, role := Role.CUSTOMER,
    isEmailVerified := false, lastLoginAt := none }

/-- AuthService.register: rejects with `UnauthorizedException('User already
exists')` when the email is taken; otherwise hashes the password, creates the
user, persists a VERIFICATION OTP expiring in 10 minutes, sends it (an SMTP
failure throws after the rows were written), and returns the sanitized user. -/
def register (st : Store) (env : Env) (now : Millis) (dto : RegisterDto) :
    Store × Except AuthError RegisterResult :=
  match st.users.find? (fun u => u.email == dto.email) with
  | some _ => (st, .error (.unauthorized "User already exists"))
  | none =>
    let user := newUserRow st env dto
    let st1 : Store := { st with users := st.users ++ [user], nextUserId := st.nextUserId + 1 }
    let otpCode := genOtpCode env.rand
    let otp : OtpRow :=
      { id := st1.nextOtpId, code := otpCode, expiresAt := now + otpTtlMs,
        isUsed := false, type := OtpType.VERIFICATION, userId := user.id, createdAt := now }
    let st2 : Store := { st1 with otps := st1.otps ++ [otp], nextOtpId := st1.nextOtpId + 1 }
    if env.emailOk then
      (st2, .ok { message := "User registered successfully. Please check your email for the verification code.",
                  user := sanitizeUser user })
    else
      (st2, .error (.internal "Failed to send verification email"))

/-- AuthService.verifyEmail: guards (user exists, not already verified), then
looks for an unused, unexpired VERIFICATION OTP with the given code; on a
match marks the OTP used and the user verified. -/
def verifyEmail (st : Store) (now : Millis) (email : String) (otpCode : Nat) :
    Store × Except AuthError MsgResult :=
  match st.users.find? (fun u => u.email == email) with
  | none => (st, .error (.notFound "User not found"))
  | some user =>
    if user.isEmailVerified then
      (st, .error (.badRequest "Email is already verified"))
    else
      match st.otps.find? (fun o =>
          o.userId == user.id && o.code == otpCode && o.type == OtpType.VERIFICATION &&
          !o.isUsed && decide (now < o.expiresAt)) with
      | none => (st, .error (.badRequest "Invalid or expired verification code"))
      | some otp =>
        let st1 : Store :=
          { st with otps := st.otps.map (fun o => if o.id == otp.id then { o with isUsed := true } else o) }
        let st2 : Store :=
          { st1 with users := st1.users.map (fun u => if u.id == user.id then { u with isEmailVerified := true } else u) }
        (st2, .ok { message := "Email verified successfully" })

/-- AuthService.resendVerificationEmail: guards as in verifyEmail, marks all
unused VERIFICATION OTPs of the user used, creates a fresh one, sends it. -/
def resendVerificationEmail (st : Store) (env : Env) (now : Millis) (email : String) :
    Store × Except AuthError MsgResult :=
  match st.users.find? (fun u => u.email == email) with
  | none => (st, .error (.notFound "User not found"))
  | some user =>
    if user.isEmailVerified then
      (st, .error (.badRequest "Email is already verified"))
    else
      let st1 : Store :=
        { st with otps := st.otps.map (fun o =>
            if o.userId == user.id && o.type == OtpType.VERIFICATION && !o.isUsed
            then { o with isUsed := true } else o) }
      let otp : OtpRow :=
        { id := st1.nextOtpId, code := genOtpCode env.rand, expiresAt := now + otpTtlMs,
          isUsed := false, type := OtpType.VERIFICATION, userId := user.id, createdAt := now }
      let st2 : Store := { st1 with otps := st1.otps ++ [otp], nextOtpId := st1.nextOtpId + 1 }
      if env.emailOk then
        (st2, .ok { message := "Verification code sent successfully" })
      else
        (st2, .error (.internal "Failed to send verification email"))

/-- AuthService.forgotPassword: if the email is unknown, returns the generic
message without touching the store; otherwise marks prior unused
PASSWORD_RESET OTPs used, creates a fresh one, sends it (an SMTP failure
throws after the rows were written), and returns the same generic message. -/
def forgotPassword (st : Store) (env : Env) (now : Millis) (email : String) :
    Store × Except AuthError MsgResult :=
  match st.users.find? (fun u => u.email == email) with
  | none =>
    (st, .ok { message := "If an account with that email exists, we have sent a password reset code." })
  | some user =>
    let st1 : Store :=
      { st with otps := st.otps.map (fun o =>
          if o.userId == user.id && o.type == OtpType.PASSWORD_RESET && !o.isUsed
          then { o with isUsed := true } else o) }
    let otp : OtpRow :=
      { id := st1.nextOtpId, code := genOtpCode env.rand, expiresAt := now + otpTtlMs,
        isUsed := false, type := OtpType.PASSWORD_RESET, userId := user.id, createdAt := now }
    let st2 : Store := { st1 with otps := st1.otps ++ [otp], nextOtpId := st1.nextOtpId + 1 }
    if env.emailOk then
      (st2, .ok { message := "If an account with that email exists, we have sent a password reset code." })
    else
      (st2, .error (.internal "Failed to send password reset email"))

/-- AuthService.resetPassword: looks for an unused, unexpired PASSWORD_RESET
OTP with the given code; on a match marks it used and stores the rehashed new
password. -/
def resetPassword (st : Store) (env : Env) (now : Millis) (email : String)
    (otpCode : Nat) (newPassword : String) : Store × Except AuthError MsgResult :=
  match st.users.find? (fun u => u.email == email) with
  | none => (st, .error (.badRequest "User not found"))
  | some user =>
    match st.otps.find? (fun o =>
        o.userId == user.id && o.code == otpCode && o.type == OtpType.PASSWORD_RESET &&
        !o.isUsed && decide (now < o.expiresAt)) with
    | none => (st, .error (.badRequest "Invalid or expired reset code"))
    | some otp =>
      let st1 : Store :=
        { st with otps := st.otps.map (fun o => if o.id == otp.id then { o with isUsed := true } else o) }
      let st2 : Store :=
        { st1 with users := st1.users.map (fun u =>
            if u.id == user.id then { u with password := env.hash newPassword } else u) }
      (st2, .ok { message := "Password reset successfully" })

/-- AuthService.sendOtp: marks ALL unused OTPs of the user used (no type
filter), then creates a fresh LOGIN OTP and sends it. -/
def sendOtp (st : Store) (env : Env) (now : Millis) (email : String) :
    Store × Except AuthError MsgResult :=
  match st.users.find? (fun u => u.email == email) with
  | none => (st, .error (.notFound "User not found"))
  | some user =>
    let st1 : Store :=
      { st with otps := st.otps.map (fun o =>
          if o.userId == user.id && !o.isUsed then { o with isUsed := true } else o) }
    let otp : OtpRow :=
      { id := st1.nextOtpId, code := genOtpCode env.rand, expiresAt := now + otpTtlMs,
        isUsed := false, type := OtpType.LOGIN, userId := user.id, createdAt := now }
    let st2 : Store := { st1 with otps := st1.otps ++ [otp], nextOtpId := st1.nextOtpId + 1 }
    if env.emailOk then
      (st2, .ok { message := "OTP sent successfully" })
    else
      (st2, .error (.internal "Failed to send OTP email"))

/-- AuthService.verifyOtp: matches any unused, unexpired OTP of the user with
the given code — no type filter; on a match marks it used, updates
lastLoginAt, and issues a session via `login`. -/
def verifyOtp (st : Store) (now : Millis) (email : String) (otpCode : Nat)
    (userAgent ipAddress : Option String) : Store × Except AuthError LoginResult :=
  match st.users.find? (fun u => u.email == email) with
  | none => (st, .error (.notFound "User not found"))
  | some user =>
    match st.otps.find? (fun o =>
        o.userId == user.id && o.code == otpCode && !o.isUsed && decide (now < o.expiresAt)) with
    | none => (st, .error (.badRequest "Invalid or expired OTP"))
    | some otp =>
      let st1 : Store :=
        { st with otps := st.otps.map (fun o => if o.id == otp.id then { o with isUsed := true } else o) }
      let st2 : Store :=
        { st1 with users := st1.users.map (fun u =>
            if u.id == user.id then { u with lastLoginAt := some now } else u) }
      let (st3, res) := login st2 now user userAgent ipAddress
      (st3, .ok res)

/-- AuthService.refreshAccessToken: verifies the JWT, looks the token up in
storage (not found / revoked / expired checked in that order), then signs a
new access token and a new refresh token, revokes the presented row and
persists the new one with a 7-day expiry.  The Prisma `include: { user }`
join is the `users.find?`; a dangling userId cannot occur under referential
integrity and surfaces here as an internal error. -/
def refreshAccessToken (st : Store) (now : Millis) (refreshToken : RefreshJwt)
    (userAgent ipAddress : Option String) : Store × Except AuthError RefreshResult :=
  if jwtVerifyRefresh refreshToken now then
    match st.refreshTokens.find? (fun r => r.token == refreshToken) with
    | none => (st, .error (.unauthorized "Refresh token not found"))
    | some storedToken =>
      if storedToken.isRevoked then
        (st, .error (.unauthorized "Refresh token has been revoked"))
      else if storedToken.expiresAt < now then
        (st, .error (.unauthorized "Refresh token has expired"))
      else
        match st.users.find? (fun u => u.id == storedToken.userId) with
        | none => (st, .error (.internal "Referenced user missing"))
        | some user =>
          let newAccessToken : AccessJwt :=
            { sub := user.id, email := user.email, role := user.role, exp := now + dayMs }
          let newRefreshToken : RefreshJwt :=
            { sub := user.id, exp := now + refreshTtlMs, sig := true, nonce := st.nextNonce }
          let row : RtRow :=
            { id := st.nextRtId, token := newRefreshToken, userId := user.id,
              expiresAt := now + refreshTtlMs, isRevoked := false,
              userAgent := userAgent, ipAddress := ipAddress, createdAt := now }
          let st' : Store :=
            { st with
                refreshTokens :=
                  (st.refreshTokens.map (fun r =>
                    if r.id == storedToken.id then { r with isRevoked := true } else r)) ++ [row],
                nextRtId := st.nextRtId + 1, nextNonce := st.nextNonce + 1 }
          (st', .ok { access_token := newAccessToken, refresh_token := newRefreshToken })
  else
    (st, .error (.unauthorized "Invalid or expired refresh token"))

/-- AuthService.revokeRefreshToken (logout): not-found error when no row has
this token string, otherwise unconditionally sets isRevoked on the row. -/
def revokeRefreshToken (st : Store) (refreshToken : RefreshJwt) :
    Store × Except AuthError MsgResult :=
  match st.refreshTokens.find? (fun r => r.token == refreshToken) with
  | none => (st, .error (.notFound "Refresh token not found"))
  | some storedToken =>
    let st' : Store :=
      { st with refreshTokens := st.refreshTokens.map (fun r =>
          if r.id == storedToken.id then { r with isRevoked := true } else r) }
    (st', .ok { message := "Refresh token revoked successfully" })

/-- AuthService.revokeAllUserRefreshTokens (logout-all): updateMany setting
isRevoked on every non-revoked token of the user.  Never throws. -/
def revokeAllUserRefreshTokens (st : Store) (userId : Nat) : Store × MsgResult :=
  ({ st with refreshTokens := st.refreshTokens.map (fun r =>
      if r.userId == userId && !r.isRevoked then { r with isRevoked := true } else r) },
   { message := "All refresh tokens revoked successfully" })

/-- Well-formedness of the store: primary keys are pairwise distinct and below
their supplies, user emails and token strings are unique (database uniqueness
constraints), and every token nonce is below the nonce supply (a fresh signing
yields a string distinct from every stored one). -/
def Store.WF (st : Store) : Prop :=
  st.users.Pairwise (fun a b => a.id ≠ b.id ∧ a.email ≠ b.email) ∧
  st.otps.Pairwise (fun a b => a.id ≠ b.id) ∧
  st.refreshTokens.Pairwise (fun a b => a.id ≠ b.id ∧ a.token ≠ b.token) ∧
  (∀ u ∈ st.users, u.id < st.nextUserId) ∧
  (∀ o ∈ st.otps, o.id < st.nextOtpId ∧ o.userId < st.nextUserId) ∧
  (∀ r ∈ st.refreshTokens, r.id < st.nextRtId ∧ r.token.nonce < st.nextNonce)

instance (st : Store) : Decidable st.WF := by
  unfold Store.WF
  infer_instance

/-! Helper lemmas on `List.find?` and store well-formedness. -/

/-- When `a` is the unique element of `l` satisfying `p`, `find?` returns it. -/
theorem find?_eq_some_of_unique {α : Type} (p : α → Bool) (l : List α) (a : α)
    (ha : a ∈ l) (hpa : p a = true) (huniq : ∀ b ∈ l, p b = true → b = a) :
    l.find? p = some a := by
  induction l with
  | nil => cases ha
  | cons x xs ih =>
    rcases List.mem_cons.mp ha with h | h
    · subst h
      simp [List.find?_cons, hpa]
    · by_cases hx : p x = true
      · have hxa := huniq x (List.mem_cons_self x xs) hx
        subst hxa
        simp [List.find?_cons, hx]
      · have hx' : p x = false := by
          cases hpx : p x with
          | true => exact absurd hpx hx
          | false => rfl
        rw [List.find?_cons, hx']
        exact ih h (fun b hb hpb => huniq b (List.mem_cons_of_mem _ hb) hpb)

/-- In a well-formed store the token string determines the refresh-token row. -/
theorem rt_token_inj {st : Store} (hwf : st.WF) {a b : RtRow}
    (ha : a ∈ st.refreshTokens) (hb : b ∈ st.refreshTokens)
    (h : a.token = b.token) : a = b := by
  by_contra hne
  have hsym : Symmetric (fun a b : RtRow => a.id ≠ b.id ∧ a.token ≠ b.token) := by
    intro x y hxy
    exact ⟨hxy.1.symm, hxy.2.symm⟩
  exact ((hwf.2.2.1).forall hsym ha hb hne).2 h

/-- In a well-formed store the email determines the user row. -/
theorem user_email_inj {st : Store} (hwf : st.WF) {a b : UserRow}
    (ha : a ∈ st.users) (hb : b ∈ st.users)
    (h : a.email = b.email) : a = b := by
  by_contra hne
  have hsym : Symmetric (fun a b : UserRow => a.id ≠ b.id ∧ a.email ≠ b.email) := by
    intro x y hxy
    exact ⟨hxy.1.symm, hxy.2.symm⟩
  exact ((hwf.1).forall hsym ha hb hne).2 h

/-- In a well-formed store the id determines the OTP row. -/
theorem otp_id_inj {st : Store} (hwf : st.WF) {a b : OtpRow}
    (ha : a ∈ st.otps) (hb : b ∈ st.otps)
    (h : a.id = b.id) : a = b := by
  by_contra hne
  have hsym : Symmetric (fun a b : OtpRow => a.id ≠ b.id) := by
    intro x y hxy
    exact hxy.symm
  exact ((hwf.2.1).forall hsym ha hb hne) h

/-! Claim theorems. -/

/-- Claim C7: forgotPassword returns the exact same success message whether or
not a user with the given email exists — whenever two calls (over any stores,
environments, times and emails, in particular one registered and one
unregistered) both return successfully, the returned message strings are
identical. -/
theorem forgotPassword_message_uniform
    (st1 st2 : Store) (env1 env2 : Env) (now1 now2 : Millis) (e1 e2 : String)
    (m1 m2 : MsgResult)
    (h1 : (forgotPassword st1 env1 now1 e1).2 = .ok m1)
    (h2 : (forgotPassword st2 env2 now2 e2).2 = .ok m2) :
    m1.message = m2.message := by
  have key : ∀ st env now e m, (forgotPassword st env now e).2 = Except.ok m →
      m.message = "If an account with that email exists, we have sent a password reset code." := by
    intro st env now e m h
    unfold forgotPassword at h
    cases hfind : st.users.find? (fun u => u.email == e) with
    | none =>
      rw [hfind] at h
      simp only [Except.ok.injEq] at h
      rw [← h]
    | some user =>
      rw [hfind] at h
      by_cases he : env.emailOk
      · simp only [he, if_true] at h
        simp only [Except.ok.injEq] at h
        rw [← h]
      · simp only [he, if_false] at h
        exact absurd h (by simp)
  rw [key _ _ _ _ _ h1, key _ _ _ _ _ h2]

/-- Sample user row used by the concrete witnesses. -/
def sampleUser : UserRow :=
  { id := 0, email := "a@x.com", password := "h", firstName := "A", lastName := "B",
    role := Role.CUSTOMER, isEmailVerified := true, lastLoginAt := none }

/-- Sample one-user store used by the concrete witnesses. -/
def sampleStore1 : Store :=
  { users := [sampleUser], otps := [], refreshTokens := [],
    nextUserId := 1, nextOtpId := 0, nextRtId := 0, nextNonce := 0 }

/-- The empty store. -/
def emptyStore : Store :=
  { users := [], otps := [], refreshTokens := [],
    nextUserId := 0, nextOtpId := 0, nextRtId := 0, nextNonce := 0 }

/-- Sample environment: identity hasher, zero random draw, SMTP delivers. -/
def idEnv : Env := { hash := fun s => s, rand := 0, emailOk := true }

/-- The anti-enumeration message of forgotPassword. -/
def fpMsg : MsgResult :=
  { message := "If an account with that email exists, we have sent a password reset code." }

/-- Witness for C7 at concrete inputs: a store holding the registered user
and an empty store; both calls succeed and the messages agree. -/
theorem forgotPassword_message_uniform_witness :
    (forgotPassword sampleStore1 idEnv 50 "a@x.com").2 = .ok fpMsg ∧
    (forgotPassword emptyStore idEnv 50 "b@x.com").2 = .ok fpMsg ∧
    fpMsg.message = fpMsg.message := by
  refine ⟨rfl, rfl, ?_⟩
  exact forgotPassword_message_uniform sampleStore1 emptyStore idEnv idEnv 50 50
    "a@x.com" "b@x.com" fpMsg fpMsg rfl rfl

/-- Claim C2: refreshAccessToken fails with the unauthorized invalid-token
error when the JWT does not verify; otherwise with not-found when no stored
row matches, with the revoked error when the row has isRevoked, and with the
expired error when the stored expiresAt is before now, checked in that order;
in every failure case the store is returned unchanged, so no new tokens are
issued for a cryptographically valid but absent or revoked token. -/
theorem refreshAccessToken_error_order (st : Store) (now : Millis)
    (tok : RefreshJwt) (ua ip : Option String) :
    (jwtVerifyRefresh tok now = false →
      refreshAccessToken st now tok ua ip =
        (st, .error (.unauthorized "Invalid or expired refresh token"))) ∧
    (jwtVerifyRefresh tok now = true →
      st.refreshTokens.find? (fun r => r.token == tok) = none →
      refreshAccessToken st now tok ua ip =
        (st, .error (.unauthorized "Refresh token not found"))) ∧
    (∀ r, jwtVerifyRefresh tok now = true →
      st.refreshTokens.find? (fun r => r.token == tok) = some r →
      r.isRevoked = true →
      refreshAccessToken st now tok ua ip =
        (st, .error (.unauthorized "Refresh token has been revoked"))) ∧
    (∀ r, jwtVerifyRefresh tok now = true →
      st.refreshTokens.find? (fun r => r.token == tok) = some r →
      r.isRevoked = false → r.expiresAt < now →
      refreshAccessToken st now tok ua ip =
        (st, .error (.unauthorized "Refresh token has expired"))) := by
  refine ⟨?_, ?_, ?_, ?_⟩
  · intro hjwt
    unfold refreshAccessToken
    rw [hjwt]
    rfl
  · intro hjwt hfind
    unfold refreshAccessToken
    rw [hjwt, hfind]
    rfl
  · intro r hjwt hfind hrev
    unfold refreshAccessToken
    rw [hjwt, hfind]
    simp only [hrev, if_true]
  · intro r hjwt hfind hrev hexp
    unfold refreshAccessToken
    rw [hjwt, hfind]
    simp only [hrev, Bool.false_eq_true, if_false, hexp, if_true]

/-- Sample refresh token whose signature verifies. -/
def sampleTok : RefreshJwt := { sub := 0, exp := 1000, sig := true, nonce := 0 }

/-- Sample store with one revoked refresh-token row for `sampleUser`. -/
def sampleStoreRevoked : Store :=
  { users := [sampleUser],
    otps := [],
    refreshTokens := [{ id := 0, token := sampleTok, userId := 0, expiresAt := 1000,
                        isRevoked := true, userAgent := none, ipAddress := none,
                        createdAt := 0 }],
    nextUserId := 1, nextOtpId := 0, nextRtId := 1, nextNonce := 1 }

/-- Witness for C2 at a concrete input: a signature-valid token whose stored
row is revoked is rejected with the revoked error and the store unchanged. -/
theorem refreshAccessToken_error_order_witness :
    refreshAccessToken sampleStoreRevoked 5 sampleTok none none =
      (sampleStoreRevoked, .error (.unauthorized "Refresh token has been revoked")) :=
  (refreshAccessToken_error_order sampleStoreRevoked 5 sampleTok none none).2.2.1
    { id := 0, token := sampleTok, userId := 0, expiresAt := 1000, isRevoked := true,
      userAgent := none, ipAddress := none, createdAt := 0 }
    rfl rfl rfl

/-- Mapping the revoke-if-id-matches update over a row list preserves tokens. -/
theorem revoke_update_token (i : Nat) (c : RtRow) :
    (if c.id == i then { c with isRevoked := true } else c).token = c.token := by
  by_cases h : (c.id == i) = true <;> simp [h]

/-- Mapping the revoke-if-id-matches update preserves userId. -/
theorem revoke_update_userId (i : Nat) (c : RtRow) :
    (if c.id == i then { c with isRevoked := true } else c).userId = c.userId := by
  by_cases h : (c.id == i) = true <;> simp [h]

/-- The revoke-if-id-matches update is idempotent on each row. -/
theorem revoke_update_idem (i : Nat) (c : RtRow) :
    (fun x : RtRow => if x.id == i then { x with isRevoked := true } else x)
      ((fun x : RtRow => if x.id == i then { x with isRevoked := true } else x) c) =
    (fun x : RtRow => if x.id == i then { x with isRevoked := true } else x) c := by
  by_cases h : (c.id == i) = true
  · have h' : c.id = i := by simpa using h
    simp [h']
  · have h' : ¬ c.id = i := by simpa using h
    simp [h']

/-- Claim C10: logout (revokeRefreshToken) fails with not-found only when no
stored row carries the token string; when a row exists — revoked already or
not — the call succeeds with the success message, every row carrying the
token ends up revoked, and a second identical call returns the same store and
the same success message (idempotence at the public interface). -/
theorem revokeRefreshToken_spec (st : Store) (hwf : st.WF) (tok : RefreshJwt) :
    (st.refreshTokens.find? (fun r => r.token == tok) = none →
      revokeRefreshToken st tok = (st, .error (.notFound "Refresh token not found"))) ∧
    (∀ r ∈ st.refreshTokens, r.token = tok →
      (revokeRefreshToken st tok).2 = .ok { message := "Refresh token revoked successfully" } ∧
      (∀ r' ∈ (revokeRefreshToken st tok).1.refreshTokens, r'.token = tok → r'.isRevoked = true) ∧
      revokeRefreshToken (revokeRefreshToken st tok).1 tok =
        ((revokeRefreshToken st tok).1, .ok { message := "Refresh token revoked successfully" })) := by
  constructor
  · intro hfind
    unfold revokeRefreshToken
    rw [hfind]
  · intro r hr htok
    have hfind : st.refreshTokens.find? (fun x => x.token == tok) = some r := by
      apply find?_eq_some_of_unique _ _ r hr (by simp [htok])
      intro b hb hpb
      exact rt_token_inj hwf hb hr (by simpa [htok] using hpb)
    have hred : revokeRefreshToken st tok =
        ({ st with refreshTokens := st.refreshTokens.map (fun x =>
            if x.id == r.id then { x with isRevoked := true } else x) },
         .ok { message := "Refresh token revoked successfully" }) := by
      unfold revokeRefreshToken
      rw [hfind]
    refine ⟨by rw [hred], ?_, ?_⟩
    · intro r' hr' htok'
      rw [hred] at hr'
      rcases List.mem_map.mp hr' with ⟨c, hc, hfc⟩
      have hct : c.token = tok := by
        rw [← htok', ← hfc]
        exact (revoke_update_token r.id c).symm
      have hcr : c = r := rt_token_inj hwf hc hr (by rw [hct, htok])
      subst hcr
      rw [← hfc]
      simp
    · have hcomp : ((fun x : RtRow => x.token == tok) ∘ (fun x =>
          if x.id == r.id then { x with isRevoked := true } else x)) =
          (fun x : RtRow => x.token == tok) := by
        funext x
        simp only [Function.comp_apply, revoke_update_token]
      have hfind2 : ((revokeRefreshToken st tok).1.refreshTokens).find?
          (fun x => x.token == tok) = some { r with isRevoked := true } := by
        rw [hred]
        rw [List.find?_map, hcomp, hfind]
        simp
      have hstep : ∀ (s : Store) (x : RtRow),
          s.refreshTokens.find? (fun y => y.token == tok) = some x →
          revokeRefreshToken s tok =
            ({ s with refreshTokens := s.refreshTokens.map (fun y =>
                if y.id == x.id then { y with isRevoked := true } else y) },
             .ok { message := "Refresh token revoked successfully" }) := by
        intro s x hf
        unfold revokeRefreshToken
        rw [hf]
      have hA : (revokeRefreshToken st tok).1.refreshTokens =
          st.refreshTokens.map (fun y =>
            if y.id == r.id then { y with isRevoked := true } else y) := by
        rw [hred]
      have hmap : (revokeRefreshToken st tok).1.refreshTokens.map (fun y =>
            if y.id == ({ r with isRevoked := true } : RtRow).id
            then { y with isRevoked := true } else y) =
          (revokeRefreshToken st tok).1.refreshTokens := by
        rw [hA, List.map_map]
        apply List.map_congr_left
        intro c _
        exact revoke_update_idem r.id c
      rw [hstep _ _ hfind2, hmap]

/-- Sample single-token store with the row NOT revoked, for witnesses. -/
def sampleStoreActive : Store :=
  { users := [sampleUser],
    otps := [],
    refreshTokens := [{ id := 0, token := sampleTok, userId := 0, expiresAt := 1000,
                        isRevoked := false, userAgent := none, ipAddress := none,
                        createdAt := 0 }],
    nextUserId := 1, nextOtpId := 0, nextRtId := 1, nextNonce := 1 }

/-- Witness for C10 at a concrete input: logout succeeds, the row is revoked,
and repeating the call succeeds on the already-revoked row with no change. -/
theorem revokeRefreshToken_spec_witness :
    (revokeRefreshToken sampleStoreActive sampleTok).2 =
      .ok { message := "Refresh token revoked successfully" } ∧
    (∀ r' ∈ (revokeRefreshToken sampleStoreActive sampleTok).1.refreshTokens,
      r'.token = sampleTok → r'.isRevoked = true) ∧
    revokeRefreshToken (revokeRefreshToken sampleStoreActive sampleTok).1 sampleTok =
      ((revokeRefreshToken sampleStoreActive sampleTok).1,
       .ok { message := "Refresh token revoked successfully" }) :=
  (revokeRefreshToken_spec sampleStoreActive (by decide) sampleTok).2
    { id := 0, token := sampleTok, userId := 0, expiresAt := 1000, isRevoked := false,
      userAgent := none, ipAddress := none, createdAt := 0 }
    (by decide) rfl

/-- The logout-all update preserves tokens. -/
theorem revokeAll_update_token (uid : Nat) (c : RtRow) :
    ((fun r : RtRow => if r.userId == uid && !r.isRevoked
        then { r with isRevoked := true } else r) c).token = c.token := by
  by_cases h : (c.userId == uid && !c.isRevoked) = true <;> simp [h]

/-- The logout-all update preserves userId. -/
theorem revokeAll_update_userId (uid : Nat) (c : RtRow) :
    ((fun r : RtRow => if r.userId == uid && !r.isRevoked
        then { r with isRevoked := true } else r) c).userId = c.userId := by
  by_cases h : (c.userId == uid && !c.isRevoked) = true <;> simp [h]

/-- The logout-all update revokes every row of the user. -/
theorem revokeAll_update_revoked (uid : Nat) (c : RtRow) (h : c.userId = uid) :
    ((fun r : RtRow => if r.userId == uid && !r.isRevoked
        then { r with isRevoked := true } else r) c).isRevoked = true := by
  by_cases hr : c.isRevoked = true
  · by_cases hc : (c.userId == uid && !c.isRevoked) = true <;> simp [hc, hr]
  · have hr' : c.isRevoked = false := by
      cases hb : c.isRevoked with
      | true => exact absurd hb hr
      | false => rfl
    simp [h, hr']

/-- The logout-all update is idempotent on each row. -/
theorem revokeAll_update_idem (uid : Nat) (c : RtRow) :
    (fun r : RtRow => if r.userId == uid && !r.isRevoked
        then { r with isRevoked := true } else r)
      ((fun r : RtRow => if r.userId == uid && !r.isRevoked
        then { r with isRevoked := true } else r) c) =
    (fun r : RtRow => if r.userId == uid && !r.isRevoked
        then { r with isRevoked := true } else r) c := by
  by_cases h : (c.userId == uid && !c.isRevoked) = true <;> simp [h]

/-- Claim C8: revokeAllUserRefreshTokens marks every refresh token of the
user revoked, is idempotent (running it twice equals running it once), and
afterwards no refresh token previously issued to the user can refresh: any
token string carried by one of the user's stored rows is rejected by
refreshAccessToken at every later time. -/
theorem revokeAllUserRefreshTokens_spec (st : Store) (hwf : st.WF) (uid : Nat) :
    (∀ r ∈ (revokeAllUserRefreshTokens st uid).1.refreshTokens,
        r.userId = uid → r.isRevoked = true) ∧
    revokeAllUserRefreshTokens (revokeAllUserRefreshTokens st uid).1 uid =
      revokeAllUserRefreshTokens st uid ∧
    (∀ tok, (∃ r ∈ st.refreshTokens, r.token = tok ∧ r.userId = uid) →
      ∀ now ua ip,
        ((refreshAccessToken (revokeAllUserRefreshTokens st uid).1 now tok ua ip).2).isOk = false) := by
  refine ⟨?_, ?_, ?_⟩
  · intro r hr hru
    rcases List.mem_map.mp hr with ⟨c, hc, hfc⟩
    have hcu : c.userId = uid := by
      rw [← hru, ← hfc, revokeAll_update_userId]
    rw [← hfc]
    exact revokeAll_update_revoked uid c hcu
  · have hmm : ((st.refreshTokens.map (fun r =>
        if r.userId == uid && !r.isRevoked then { r with isRevoked := true } else r)).map
          (fun r => if r.userId == uid && !r.isRevoked then { r with isRevoked := true } else r)) =
        st.refreshTokens.map (fun r =>
          if r.userId == uid && !r.isRevoked then { r with isRevoked := true } else r) := by
      rw [List.map_map]
      exact List.map_congr_left (fun c _ => revokeAll_update_idem uid c)
    unfold revokeAllUserRefreshTokens
    dsimp only
    rw [hmm]
  · rintro tok ⟨r, hr, htok, hru⟩ now ua ip
    have hfind : st.refreshTokens.find? (fun x => x.token == tok) = some r := by
      apply find?_eq_some_of_unique _ _ r hr (by simp [htok])
      intro b hb hpb
      exact rt_token_inj hwf hb hr (by simpa [htok] using hpb)
    have hcomp : ((fun x : RtRow => x.token == tok) ∘ (fun r : RtRow =>
        if r.userId == uid && !r.isRevoked then { r with isRevoked := true } else r)) =
        (fun x : RtRow => x.token == tok) := by
      funext x
      simp only [Function.comp_apply, revokeAll_update_token]
    have hfindA : ((revokeAllUserRefreshTokens st uid).1.refreshTokens).find?
        (fun x => x.token == tok) =
        some ((fun r : RtRow => if r.userId == uid && !r.isRevoked
            then { r with isRevoked := true } else r) r) := by
      show ((st.refreshTokens.map (fun r : RtRow =>
          if r.userId == uid && !r.isRevoked then { r with isRevoked := true } else r)).find?
            (fun x => x.token == tok)) = _
      rw [List.find?_map, hcomp, hfind]
      rfl
    have hrev : ((fun r : RtRow => if r.userId == uid && !r.isRevoked
        then { r with isRevoked := true } else r) r).isRevoked = true :=
      revokeAll_update_revoked uid r hru
    cases hj : jwtVerifyRefresh tok now with
    | false =>
      unfold refreshAccessToken
      rw [hj]
      rfl
    | true =>
      unfold refreshAccessToken
      rw [hj, hfindA]
      simp only [hrev, if_true]
      rfl

/-- Witness for C8 at a concrete input: after logout-all on the sample store
the row is revoked, the operation is idempotent, and the token can no longer
refresh. -/
theorem revokeAllUserRefreshTokens_spec_witness :
    (∀ r ∈ (revokeAllUserRefreshTokens sampleStoreActive 0).1.refreshTokens,
        r.userId = 0 → r.isRevoked = true) ∧
    revokeAllUserRefreshTokens (revokeAllUserRefreshTokens sampleStoreActive 0).1 0 =
      revokeAllUserRefreshTokens sampleStoreActive 0 ∧
    (∀ tok, (∃ r ∈ sampleStoreActive.refreshTokens, r.token = tok ∧ r.userId = 0) →
      ∀ now ua ip,
        ((refreshAccessToken (revokeAllUserRefreshTokens sampleStoreActive 0).1 now tok ua ip).2).isOk = false) :=
  revokeAllUserRefreshTokens_spec sampleStoreActive (by decide) 0

/-- In a well-formed store the id determines the user row. -/
theorem user_id_inj {st : Store} (hwf : st.WF) {a b : UserRow}
    (ha : a ∈ st.users) (hb : b ∈ st.users)
    (h : a.id = b.id) : a = b := by
  by_contra hne
  have hsym : Symmetric (fun a b : UserRow => a.id ≠ b.id ∧ a.email ≠ b.email) := by
    intro x y hxy
    exact ⟨hxy.1.symm, hxy.2.symm⟩
  exact ((hwf.1).forall hsym ha hb hne).1 h

/-- Reduction of refreshAccessToken along its success path. -/
theorem refreshAccessToken_success_step (st : Store) (now : Millis) (tok : RefreshJwt)
    (ua ip : Option String) (r : RtRow) (u : UserRow)
    (hj : jwtVerifyRefresh tok now = true)
    (hfind : st.refreshTokens.find? (fun x => x.token == tok) = some r)
    (hrev : r.isRevoked = false) (hexp : ¬ r.expiresAt < now)
    (hu : st.users.find? (fun x => x.id == r.userId) = some u) :
    refreshAccessToken st now tok ua ip =
      ({ st with
          refreshTokens := (st.refreshTokens.map (fun x =>
            if x.id == r.id then { x with isRevoked := true } else x)) ++
            [{ id := st.nextRtId,
               token := { sub := u.id, exp := now + refreshTtlMs, sig := true, nonce := st.nextNonce },
               userId := u.id, expiresAt := now + refreshTtlMs, isRevoked := false,
               userAgent := ua, ipAddress := ip, createdAt := now }],
          nextRtId := st.nextRtId + 1, nextNonce := st.nextNonce + 1 },
       .ok { access_token := { sub := u.id, email := u.email, role := u.role, exp := now + dayMs },
             refresh_token := { sub := u.id, exp := now + refreshTtlMs, sig := true, nonce := st.nextNonce } }) := by
  unfold refreshAccessToken
  rw [hj, hfind]
  simp only [hrev, Bool.false_eq_true, if_false]
  rw [if_neg hexp, hu]
  rfl

/-- Reduction of refreshAccessToken when the JWT does not verify. -/
theorem refreshAccessToken_badjwt_step (s : Store) (now : Millis) (tok : RefreshJwt)
    (ua ip : Option String) (hj : jwtVerifyRefresh tok now = false) :
    refreshAccessToken s now tok ua ip =
      (s, .error (.unauthorized "Invalid or expired refresh token")) := by
  unfold refreshAccessToken
  rw [hj]
  rfl

/-- Reduction of refreshAccessToken when the found row is revoked. -/
theorem refreshAccessToken_revoked_step (s : Store) (now : Millis) (tok : RefreshJwt)
    (ua ip : Option String) (x : RtRow)
    (hj : jwtVerifyRefresh tok now = true)
    (hfind : s.refreshTokens.find? (fun y => y.token == tok) = some x)
    (hxrev : x.isRevoked = true) :
    refreshAccessToken s now tok ua ip =
      (s, .error (.unauthorized "Refresh token has been revoked")) := by
  unfold refreshAccessToken
  rw [hj, hfind]
  simp only [hxrev, if_true]

/-- Claim C1: given a refresh token whose stored row is present, not revoked
and not expired (and whose JWT verifies, as holds for every token the service
signed within its lifetime), refreshAccessToken succeeds returning a new
access token and a fresh refresh token distinct from the presented one; it
revokes the presented row and persists the new token with a 7-day expiry for
the same user; afterwards the presented token is rejected at every later
time, while the newly returned token refreshes successfully at any time
before its expiry. -/
theorem refreshAccessToken_rotation (st : Store) (hwf : st.WF) (now : Millis)
    (tok : RefreshJwt) (ua ip : Option String) (r : RtRow) (user : UserRow)
    (hr : r ∈ st.refreshTokens) (htok : r.token = tok)
    (hrev : r.isRevoked = false) (hexp : ¬ r.expiresAt < now)
    (hsig : tok.sig = true) (hjexp : now < tok.exp)
    (huser : user ∈ st.users) (huid : user.id = r.userId) :
    ∃ res : RefreshResult,
      (refreshAccessToken st now tok ua ip).2 = .ok res ∧
      res.refresh_token ≠ tok ∧
      (∃ r' ∈ (refreshAccessToken st now tok ua ip).1.refreshTokens,
          r'.id = r.id ∧ r'.token = tok ∧ r'.isRevoked = true) ∧
      (∃ nr ∈ (refreshAccessToken st now tok ua ip).1.refreshTokens,
          nr.token = res.refresh_token ∧ nr.userId = r.userId ∧
          nr.expiresAt = now + refreshTtlMs ∧ nr.isRevoked = false) ∧
      (∀ now' ua' ip',
        ((refreshAccessToken (refreshAccessToken st now tok ua ip).1 now' tok ua' ip').2).isOk = false) ∧
      (∀ now' ua' ip', now' < now + refreshTtlMs →
        ((refreshAccessToken (refreshAccessToken st now tok ua ip).1 now' res.refresh_token ua' ip').2).isOk = true) := by
  have hj : jwtVerifyRefresh tok now = true := by
    unfold jwtVerifyRefresh
    simp [hsig, hjexp]
  have hfind : st.refreshTokens.find? (fun x => x.token == tok) = some r := by
    apply find?_eq_some_of_unique _ _ r hr (by simp [htok])
    intro b hb hpb
    exact rt_token_inj hwf hb hr (by simpa [htok] using hpb)
  have hu : st.users.find? (fun x => x.id == r.userId) = some user := by
    apply find?_eq_some_of_unique _ _ user huser (by simp [huid])
    intro b hb hpb
    exact user_id_inj hwf hb huser (by
      have : b.id = r.userId := by simpa using hpb
      rw [this, huid])
  have hstep := refreshAccessToken_success_step st now tok ua ip r user hj hfind hrev hexp hu
  have hA : (refreshAccessToken st now tok ua ip).1.refreshTokens =
      (st.refreshTokens.map (fun x =>
        if x.id == r.id then { x with isRevoked := true } else x)) ++
      [{ id := st.nextRtId,
         token := { sub := user.id, exp := now + refreshTtlMs, sig := true, nonce := st.nextNonce },
         userId := user.id, expiresAt := now + refreshTtlMs, isRevoked := false,
         userAgent := ua, ipAddress := ip, createdAt := now }] := by
    rw [hstep]
  have hAu : (refreshAccessToken st now tok ua ip).1.users = st.users := by
    rw [hstep]
  refine ⟨{ access_token := { sub := user.id, email := user.email, role := user.role, exp := now + dayMs },
            refresh_token := { sub := user.id, exp := now + refreshTtlMs, sig := true, nonce := st.nextNonce } },
          ?_, ?_, ?_, ?_, ?_, ?_⟩
  · rw [hstep]
  · intro heq
    have hn : st.nextNonce = tok.nonce := congrArg RefreshJwt.nonce heq
    have hlt : tok.nonce < st.nextNonce := by
      have h2 := (hwf.2.2.2.2.2 r hr).2
      rwa [htok] at h2
    omega
  · refine ⟨{ r with isRevoked := true }, ?_, ?_, ?_, ?_⟩
    · rw [hA]
      exact List.mem_append_left _ (List.mem_map.mpr ⟨r, hr, by simp⟩)
    · rfl
    · exact htok
    · rfl
  · refine ⟨{ id := st.nextRtId,
              token := { sub := user.id, exp := now + refreshTtlMs, sig := true, nonce := st.nextNonce },
              userId := user.id, expiresAt := now + refreshTtlMs, isRevoked := false,
              userAgent := ua, ipAddress := ip, createdAt := now }, ?_, ?_, ?_, ?_, ?_⟩
    · rw [hA]
      exact List.mem_append_right _ (List.mem_singleton.mpr rfl)
    · rfl
    · exact huid
    · rfl
    · rfl
  · intro now' ua' ip'
    cases hj' : jwtVerifyRefresh tok now' with
    | false =>
      rw [refreshAccessToken_badjwt_step _ now' tok ua' ip' hj']
      rfl
    | true =>
      have hcomp : ((fun x : RtRow => x.token == tok) ∘ (fun x : RtRow =>
          if x.id == r.id then { x with isRevoked := true } else x)) =
          (fun x : RtRow => x.token == tok) := by
        funext x
        simp only [Function.comp_apply, revoke_update_token]
      have hfindA : ((refreshAccessToken st now tok ua ip).1.refreshTokens).find?
          (fun x => x.token == tok) = some { r with isRevoked := true } := by
        rw [hA, List.find?_append, List.find?_map, hcomp, hfind]
        simp
      rw [refreshAccessToken_revoked_step _ now' tok ua' ip' _ hj' hfindA rfl]
      rfl
  · intro now' ua' ip' hlt'
    have hj2 : jwtVerifyRefresh
        ({ sub := user.id, exp := now + refreshTtlMs, sig := true, nonce := st.nextNonce } : RefreshJwt)
        now' = true := by
      unfold jwtVerifyRefresh
      simp [hlt']
    have hfindNone : (st.refreshTokens.map (fun x =>
        if x.id == r.id then { x with isRevoked := true } else x)).find?
        (fun x => x.token ==
          ({ sub := user.id, exp := now + refreshTtlMs, sig := true, nonce := st.nextNonce } : RefreshJwt)) = none := by
      rw [List.find?_map]
      have hnone : (st.refreshTokens.find? ((fun x : RtRow => x.token ==
          ({ sub := user.id, exp := now + refreshTtlMs, sig := true, nonce := st.nextNonce } : RefreshJwt)) ∘
          (fun x : RtRow => if x.id == r.id then { x with isRevoked := true } else x))) = none := by
        rw [List.find?_eq_none]
        intro b hb hpb
        have h1 : ((if b.id == r.id then { b with isRevoked := true } else b).token ==
            ({ sub := user.id, exp := now + refreshTtlMs, sig := true, nonce := st.nextNonce } : RefreshJwt)) = true := hpb
        rw [revoke_update_token] at h1
        have hbt : b.token =
            ({ sub := user.id, exp := now + refreshTtlMs, sig := true, nonce := st.nextNonce } : RefreshJwt) :=
          beq_iff_eq.mp h1
        have hltb : b.token.nonce < st.nextNonce := (hwf.2.2.2.2.2 b hb).2
        rw [hbt] at hltb
        simp at hltb
      rw [hnone]
      rfl
    have hfindA2 : ((refreshAccessToken st now tok ua ip).1.refreshTokens).find?
        (fun x => x.token ==
          ({ sub := user.id, exp := now + refreshTtlMs, sig := true, nonce := st.nextNonce } : RefreshJwt)) =
        some { id := st.nextRtId,
               token := { sub := user.id, exp := now + refreshTtlMs, sig := true, nonce := st.nextNonce },
               userId := user.id, expiresAt := now + refreshTtlMs, isRevoked := false,
               userAgent := ua, ipAddress := ip, createdAt := now } := by
      rw [hA, List.find?_append, hfindNone, Option.none_or]
      simp
    have hu2 : ((refreshAccessToken st now tok ua ip).1.users).find?
        (fun x => x.id ==
          ({ id := st.nextRtId,
             token := { sub := user.id, exp := now + refreshTtlMs, sig := true, nonce := st.nextNonce },
             userId := user.id, expiresAt := now + refreshTtlMs, isRevoked := false,
             userAgent := ua, ipAddress := ip, createdAt := now } : RtRow).userId) = some user := by
      rw [hAu]
      apply find?_eq_some_of_unique _ _ user huser (by simp)
      intro b hb hpb
      refine user_id_inj hwf hb huser ?_
      simpa using hpb
    have hstep2 := refreshAccessToken_success_step
      (refreshAccessToken st now tok ua ip).1 now'
      { sub := user.id, exp := now + refreshTtlMs, sig := true, nonce := st.nextNonce } ua' ip'
      { id := st.nextRtId,
        token := { sub := user.id, exp := now + refreshTtlMs, sig := true, nonce := st.nextNonce },
        userId := user.id, expiresAt := now + refreshTtlMs, isRevoked := false,
        userAgent := ua, ipAddress := ip, createdAt := now }
      user hj2 hfindA2 rfl (Nat.lt_asymm hlt') hu2
    show ((refreshAccessToken (refreshAccessToken st now tok ua ip).1 now'
        { sub := user.id, exp := now + refreshTtlMs, sig := true, nonce := st.nextNonce } ua' ip').2).isOk = true
    rw [hstep2]
    rfl

/-- Witness for C1 at a concrete input: the single active sample token
rotates at time 5. -/
theorem refreshAccessToken_rotation_witness :
    ∃ res : RefreshResult,
      (refreshAccessToken sampleStoreActive 5 sampleTok none none).2 = .ok res ∧
      res.refresh_token ≠ sampleTok ∧
      (∃ r' ∈ (refreshAccessToken sampleStoreActive 5 sampleTok none none).1.refreshTokens,
          r'.id = 0 ∧ r'.token = sampleTok ∧ r'.isRevoked = true) ∧
      (∃ nr ∈ (refreshAccessToken sampleStoreActive 5 sampleTok none none).1.refreshTokens,
          nr.token = res.refresh_token ∧ nr.userId = 0 ∧
          nr.expiresAt = 5 + refreshTtlMs ∧ nr.isRevoked = false) ∧
      (∀ now' ua' ip',
        ((refreshAccessToken (refreshAccessToken sampleStoreActive 5 sampleTok none none).1
            now' sampleTok ua' ip').2).isOk = false) ∧
      (∀ now' ua' ip', now' < 5 + refreshTtlMs →
        ((refreshAccessToken (refreshAccessToken sampleStoreActive 5 sampleTok none none).1
            now' res.refresh_token ua' ip').2).isOk = true) :=
  refreshAccessToken_rotation sampleStoreActive (by decide) 5 sampleTok none none
    { id := 0, token := sampleTok, userId := 0, expiresAt := 1000, isRevoked := false,
      userAgent := none, ipAddress := none, createdAt := 0 }
    sampleUser (by decide) rfl rfl (by decide) rfl (by decide) (by decide) rfl

/-- find? over a map whose function preserves the predicate. -/
theorem find?_map_pres {α : Type} (f : α → α) (p : α → Bool) (l : List α)
    (hpres : ∀ x, p (f x) = p x) :
    (l.map f).find? p = Option.map f (l.find? p) := by
  rw [List.find?_map]
  have h : (p ∘ f) = p := funext hpres
  rw [h]

/-- The mark-used OTP update preserves every field except isUsed. -/
theorem markUsed_fields (i : Nat) (c : OtpRow) :
    (if c.id == i then { c with isUsed := true } else c).id = c.id ∧
    (if c.id == i then { c with isUsed := true } else c).code = c.code ∧
    (if c.id == i then { c with isUsed := true } else c).type = c.type ∧
    (if c.id == i then { c with isUsed := true } else c).userId = c.userId ∧
    (if c.id == i then { c with isUsed := true } else c).expiresAt = c.expiresAt := by
  by_cases h : (c.id == i) = true <;> simp [h]

/-- Reduction of verifyOtp along its success path. -/
theorem verifyOtp_success_step (st : Store) (now : Millis) (email : String) (code : Nat)
    (ua ip : Option String) (user : UserRow) (m : OtpRow)
    (hu : st.users.find? (fun x => x.email == email) = some user)
    (hm : st.otps.find? (fun o =>
        o.userId == user.id && o.code == code && !o.isUsed && decide (now < o.expiresAt)) = some m) :
    verifyOtp st now email code ua ip =
      ({ st with
          otps := st.otps.map (fun o => if o.id == m.id then { o with isUsed := true } else o),
          users := st.users.map (fun u => if u.id == user.id then { u with lastLoginAt := some now } else u),
          refreshTokens := st.refreshTokens ++
            [{ id := st.nextRtId,
               token := { sub := user.id, exp := now + refreshTtlMs, sig := true, nonce := st.nextNonce },
               userId := user.id, expiresAt := now + refreshTtlMs, isRevoked := false,
               userAgent := ua, ipAddress := ip, createdAt := now }],
          nextRtId := st.nextRtId + 1, nextNonce := st.nextNonce + 1 },
       .ok { access_token := { sub := user.id, email := user.email, role := user.role, exp := now + dayMs },
             refresh_token := { sub := user.id, exp := now + refreshTtlMs, sig := true, nonce := st.nextNonce },
             user := { id := user.id, email := user.email, firstName := user.firstName,
                       lastName := user.lastName, role := user.role,
                       isEmailVerified := user.isEmailVerified } }) := by
  unfold verifyOtp login
  simp only [hu]
  simp only [hm]

/-- Reduction of verifyOtp when no OTP row matches. -/
theorem verifyOtp_nomatch_step (st : Store) (now : Millis) (email : String) (code : Nat)
    (ua ip : Option String) (user : UserRow)
    (hu : st.users.find? (fun x => x.email == email) = some user)
    (hnone : st.otps.find? (fun o =>
        o.userId == user.id && o.code == code && !o.isUsed && decide (now < o.expiresAt)) = none) :
    verifyOtp st now email code ua ip =
      (st, .error (.badRequest "Invalid or expired OTP")) := by
  unfold verifyOtp
  simp only [hu]
  simp only [hnone]

/-- Reduction of verifyEmail when no VERIFICATION OTP row matches. -/
theorem verifyEmail_nomatch_step (st : Store) (now : Millis) (email : String) (code : Nat)
    (user : UserRow)
    (hu : st.users.find? (fun x => x.email == email) = some user)
    (hver : user.isEmailVerified = false)
    (hnone : st.otps.find? (fun o =>
        o.userId == user.id && o.code == code && o.type == OtpType.VERIFICATION &&
        !o.isUsed && decide (now < o.expiresAt)) = none) :
    verifyEmail st now email code =
      (st, .error (.badRequest "Invalid or expired verification code")) := by
  unfold verifyEmail
  simp only [hu]
  simp only [hver, Bool.false_eq_true, if_false]
  simp only [hnone]

/-- Reduction of verifyEmail along its success path. -/
theorem verifyEmail_success_step (st : Store) (now : Millis) (email : String) (code : Nat)
    (user : UserRow) (m : OtpRow)
    (hu : st.users.find? (fun x => x.email == email) = some user)
    (hver : user.isEmailVerified = false)
    (hm : st.otps.find? (fun o =>
        o.userId == user.id && o.code == code && o.type == OtpType.VERIFICATION &&
        !o.isUsed && decide (now < o.expiresAt)) = some m) :
    verifyEmail st now email code =
      ({ st with
          otps := st.otps.map (fun o => if o.id == m.id then { o with isUsed := true } else o),
          users := st.users.map (fun u => if u.id == user.id then { u with isEmailVerified := true } else u) },
       .ok { message := "Email verified successfully" }) := by
  unfold verifyEmail
  simp only [hu]
  simp only [hver, Bool.false_eq_true, if_false]
  simp only [hm]

/-- Reduction of resetPassword when no PASSWORD_RESET OTP row matches. -/
theorem resetPassword_nomatch_step (st : Store) (env : Env) (now : Millis) (email : String)
    (code : Nat) (newPassword : String) (user : UserRow)
    (hu : st.users.find? (fun x => x.email == email) = some user)
    (hnone : st.otps.find? (fun o =>
        o.userId == user.id && o.code == code && o.type == OtpType.PASSWORD_RESET &&
        !o.isUsed && decide (now < o.expiresAt)) = none) :
    resetPassword st env now email code newPassword =
      (st, .error (.badRequest "Invalid or expired reset code")) := by
  unfold resetPassword
  simp only [hu]
  simp only [hnone]

/-- Reduction of resetPassword along its success path. -/
theorem resetPassword_success_step (st : Store) (env : Env) (now : Millis) (email : String)
    (code : Nat) (newPassword : String) (user : UserRow) (m : OtpRow)
    (hu : st.users.find? (fun x => x.email == email) = some user)
    (hm : st.otps.find? (fun o =>
        o.userId == user.id && o.code == code && o.type == OtpType.PASSWORD_RESET &&
        !o.isUsed && decide (now < o.expiresAt)) = some m) :
    resetPassword st env now email code newPassword =
      ({ st with
          otps := st.otps.map (fun o => if o.id == m.id then { o with isUsed := true } else o),
          users := st.users.map (fun u => if u.id == user.id then { u with password := env.hash newPassword } else u) },
       .ok { message := "Password reset successfully" }) := by
  unfold resetPassword
  simp only [hu]
  simp only [hm]

/-- Claim C6: the login-path verifyOtp matches any unused, unexpired OTP of
the user with the given code, with no filter on type — so a valid unused code
of any type (VERIFICATION, PASSWORD_RESET, LOGIN) makes verifyOtp succeed,
consume the matched OTP, set lastLoginAt and issue a session — whereas
verifyEmail and resetPassword fail with their invalid-code errors as soon as
no row of their own type matches, even when rows of other types do. -/
theorem verifyOtp_no_type_filter (st : Store) (hwf : st.WF) (now : Millis)
    (email : String) (code : Nat) (ua ip : Option String)
    (env : Env) (newPassword : String)
    (user : UserRow) (hu : user ∈ st.users) (hmail : user.email = email)
    (o : OtpRow) (ho : o ∈ st.otps) (houid : o.userId = user.id)
    (hocode : o.code = code) (hounused : o.isUsed = false) (hoexp : now < o.expiresAt) :
    (∃ res, (verifyOtp st now email code ua ip).2 = .ok res ∧
      (∃ u' ∈ (verifyOtp st now email code ua ip).1.users,
          u'.id = user.id ∧ u'.lastLoginAt = some now) ∧
      (∃ m, st.otps.find? (fun x =>
          x.userId == user.id && x.code == code && !x.isUsed && decide (now < x.expiresAt)) = some m ∧
        { m with isUsed := true } ∈ (verifyOtp st now email code ua ip).1.otps) ∧
      (∃ rt ∈ (verifyOtp st now email code ua ip).1.refreshTokens,
          rt.userId = user.id ∧ rt.token = res.refresh_token)) ∧
    (user.isEmailVerified = false →
      (∀ x ∈ st.otps, x.userId = user.id → x.code = code → x.isUsed = false →
        now < x.expiresAt → x.type ≠ OtpType.VERIFICATION) →
      (verifyEmail st now email code).2 = .error (.badRequest "Invalid or expired verification code")) ∧
    ((∀ x ∈ st.otps, x.userId = user.id → x.code = code → x.isUsed = false →
        now < x.expiresAt → x.type ≠ OtpType.PASSWORD_RESET) →
      (resetPassword st env now email code newPassword).2 = .error (.badRequest "Invalid or expired reset code")) := by
  have hufind : st.users.find? (fun x => x.email == email) = some user := by
    apply find?_eq_some_of_unique _ _ user hu (by simp [hmail])
    intro b hb hpb
    refine user_email_inj hwf hb hu ?_
    have : b.email = email := by simpa using hpb
    rw [this, hmail]
  refine ⟨?_, ?_, ?_⟩
  · have hsome : (st.otps.find? (fun x =>
        x.userId == user.id && x.code == code && !x.isUsed && decide (now < x.expiresAt))).isSome = true :=
      List.find?_isSome.mpr ⟨o, ho, by simp [houid, hocode, hounused, hoexp]⟩
    rcases Option.isSome_iff_exists.mp hsome with ⟨m, hm⟩
    have hstep := verifyOtp_success_step st now email code ua ip user m hufind hm
    refine ⟨{ access_token := { sub := user.id, email := user.email, role := user.role, exp := now + dayMs },
              refresh_token := { sub := user.id, exp := now + refreshTtlMs, sig := true, nonce := st.nextNonce },
              user := { id := user.id, email := user.email, firstName := user.firstName,
                        lastName := user.lastName, role := user.role,
                        isEmailVerified := user.isEmailVerified } },
            by rw [hstep], ?_, ?_, ?_⟩
    · refine ⟨{ user with lastLoginAt := some now }, ?_, rfl, rfl⟩
      have : (verifyOtp st now email code ua ip).1.users =
          st.users.map (fun u => if u.id == user.id then { u with lastLoginAt := some now } else u) := by
        rw [hstep]
      rw [this]
      exact List.mem_map.mpr ⟨user, hu, by simp⟩
    · refine ⟨m, hm, ?_⟩
      have : (verifyOtp st now email code ua ip).1.otps =
          st.otps.map (fun x => if x.id == m.id then { x with isUsed := true } else x) := by
        rw [hstep]
      rw [this]
      exact List.mem_map.mpr ⟨m, List.mem_of_find?_eq_some hm, by simp⟩
    · refine ⟨{ id := st.nextRtId,
                token := { sub := user.id, exp := now + refreshTtlMs, sig := true, nonce := st.nextNonce },
                userId := user.id, expiresAt := now + refreshTtlMs, isRevoked := false,
                userAgent := ua, ipAddress := ip, createdAt := now }, ?_, rfl, rfl⟩
      have : (verifyOtp st now email code ua ip).1.refreshTokens =
          st.refreshTokens ++
            [{ id := st.nextRtId,
               token := { sub := user.id, exp := now + refreshTtlMs, sig := true, nonce := st.nextNonce },
               userId := user.id, expiresAt := now + refreshTtlMs, isRevoked := false,
               userAgent := ua, ipAddress := ip, createdAt := now }] := by
        rw [hstep]
      rw [this]
      exact List.mem_append_right _ (List.mem_singleton.mpr rfl)
  · intro hver hnone
    have hfn : st.otps.find? (fun x =>
        x.userId == user.id && x.code == code && x.type == OtpType.VERIFICATION &&
        !x.isUsed && decide (now < x.expiresAt)) = none := by
      rw [List.find?_eq_none]
      intro x hx hpx
      simp only [Bool.and_eq_true, beq_iff_eq, Bool.not_eq_true', decide_eq_true_eq] at hpx
      exact hnone x hx hpx.1.1.1.1 hpx.1.1.1.2 hpx.1.2 hpx.2 hpx.1.1.2
    rw [verifyEmail_nomatch_step st now email code user hufind hver hfn]
  · intro hnone
    have hfn : st.otps.find? (fun x =>
        x.userId == user.id && x.code == code && x.type == OtpType.PASSWORD_RESET &&
        !x.isUsed && decide (now < x.expiresAt)) = none := by
      rw [List.find?_eq_none]
      intro x hx hpx
      simp only [Bool.and_eq_true, beq_iff_eq, Bool.not_eq_true', decide_eq_true_eq] at hpx
      exact hnone x hx hpx.1.1.1.1 hpx.1.1.1.2 hpx.1.2 hpx.2 hpx.1.1.2
    rw [resetPassword_nomatch_step st env now email code newPassword user hufind hfn]

/-- Sample unverified user for the OTP witnesses. -/
def otpUser : UserRow :=
  { id := 0, email := "a@x.com", password := "h", firstName := "A", lastName := "B",
    role := Role.CUSTOMER, isEmailVerified := false, lastLoginAt := none }

/-- Sample unused PASSWORD_RESET OTP row. -/
def otpRowPR : OtpRow :=
  { id := 0, code := 123456, expiresAt := 1000, isUsed := false,
    type := OtpType.PASSWORD_RESET, userId := 0, createdAt := 0 }

/-- Sample store with one unverified user and one PASSWORD_RESET OTP. -/
def otpStore : Store :=
  { users := [otpUser], otps := [otpRowPR], refreshTokens := [],
    nextUserId := 1, nextOtpId := 1, nextRtId := 0, nextNonce := 0 }

/-- Witness for C6 at a concrete input: a valid unused PASSWORD_RESET code
presented to the login-path verifyOtp. -/
theorem verifyOtp_no_type_filter_witness :
    (∃ res, (verifyOtp otpStore 5 "a@x.com" 123456 none none).2 = .ok res ∧
      (∃ u' ∈ (verifyOtp otpStore 5 "a@x.com" 123456 none none).1.users,
          u'.id = otpUser.id ∧ u'.lastLoginAt = some 5) ∧
      (∃ m, otpStore.otps.find? (fun x =>
          x.userId == otpUser.id && x.code == 123456 && !x.isUsed && decide (5 < x.expiresAt)) = some m ∧
        { m with isUsed := true } ∈ (verifyOtp otpStore 5 "a@x.com" 123456 none none).1.otps) ∧
      (∃ rt ∈ (verifyOtp otpStore 5 "a@x.com" 123456 none none).1.refreshTokens,
          rt.userId = otpUser.id ∧ rt.token = res.refresh_token)) ∧
    (otpUser.isEmailVerified = false →
      (∀ x ∈ otpStore.otps, x.userId = otpUser.id → x.code = 123456 → x.isUsed = false →
        5 < x.expiresAt → x.type ≠ OtpType.VERIFICATION) →
      (verifyEmail otpStore 5 "a@x.com" 123456).2 = .error (.badRequest "Invalid or expired verification code")) ∧
    ((∀ x ∈ otpStore.otps, x.userId = otpUser.id → x.code = 123456 → x.isUsed = false →
        5 < x.expiresAt → x.type ≠ OtpType.PASSWORD_RESET) →
      (resetPassword otpStore idEnv 5 "a@x.com" 123456 "NewPw1@aa").2 = .error (.badRequest "Invalid or expired reset code")) :=
  verifyOtp_no_type_filter otpStore (by decide) 5 "a@x.com" 123456 none none idEnv "NewPw1@aa"
    otpUser (by decide) rfl otpRowPR (by decide) rfl rfl rfl (by decide)

/-- Sample unused VERIFICATION OTP row. -/
def otpRowV : OtpRow :=
  { id := 0, code := 123456, expiresAt := 1000, isUsed := false,
    type := OtpType.VERIFICATION, userId := 0, createdAt := 0 }

/-- Sample store with one unverified user and one VERIFICATION OTP. -/
def otpStoreV : Store :=
  { users := [otpUser], otps := [otpRowV], refreshTokens := [],
    nextUserId := 1, nextOtpId := 1, nextRtId := 0, nextNonce := 0 }

/-- Counterexample to C3 as stated: verifyEmail on a fresh user with a valid
VERIFICATION code succeeds; the second call with the same code then fails,
but with the already-verified error — not the invalid-or-expired-code error
the claim names — because the first success also marked the user verified. -/
theorem verifyEmail_second_error_counterexample :
    (verifyEmail otpStoreV 5 "a@x.com" 123456).2 =
      .ok { message := "Email verified successfully" } ∧
    (verifyEmail (verifyEmail otpStoreV 5 "a@x.com" 123456).1 5 "a@x.com" 123456).2 =
      .error (.badRequest "Email is already verified") ∧
    (AuthError.badRequest "Email is already verified") ≠
      (AuthError.badRequest "Invalid or expired verification code") :=
  ⟨rfl, rfl, by decide⟩

/-- The set-email-verified user update preserves email. -/
theorem setVerified_email (i : Nat) (c : UserRow) :
    (if c.id == i then { c with isEmailVerified := true } else c).email = c.email := by
  by_cases h : (c.id == i) = true <;> simp [h]

/-- The set-password user update preserves email. -/
theorem setPassword_email (i : Nat) (pw : String) (c : UserRow) :
    (if c.id == i then { c with password := pw } else c).email = c.email := by
  by_cases h : (c.id == i) = true <;> simp [h]

/-- The set-lastLoginAt user update preserves email. -/
theorem setLastLogin_email (i : Nat) (t : Millis) (c : UserRow) :
    (if c.id == i then { c with lastLoginAt := some t } else c).email = c.email := by
  by_cases h : (c.id == i) = true <;> simp [h]

/-- Reduction of verifyEmail when the user is already verified. -/
theorem verifyEmail_verified_step (st : Store) (now : Millis) (email : String) (code : Nat)
    (user : UserRow)
    (hu : st.users.find? (fun x => x.email == email) = some user)
    (hver : user.isEmailVerified = true) :
    verifyEmail st now email code =
      (st, .error (.badRequest "Email is already verified")) := by
  unfold verifyEmail
  simp only [hu]
  simp only [hver, if_true]

/-- Validation behaviour of verifyEmail: success iff a matching VERIFICATION
row exists; a success consumes the matched row and flips the user to
verified, so the second identical call fails with the already-verified
error. -/
theorem verifyEmail_validate (st : Store) (hwf : st.WF) (now : Millis)
    (email : String) (code : Nat) (user : UserRow)
    (hu : user ∈ st.users) (hmail : user.email = email)
    (hver : user.isEmailVerified = false) :
    ((∃ res, (verifyEmail st now email code).2 = .ok res) ↔
      ∃ x ∈ st.otps, x.userId = user.id ∧ x.code = code ∧ x.type = OtpType.VERIFICATION ∧
        x.isUsed = false ∧ now < x.expiresAt) ∧
    (∀ m, st.otps.find? (fun x =>
        x.userId == user.id && x.code == code && x.type == OtpType.VERIFICATION &&
        !x.isUsed && decide (now < x.expiresAt)) = some m →
      { m with isUsed := true } ∈ (verifyEmail st now email code).1.otps ∧
      (verifyEmail (verifyEmail st now email code).1 now email code).2 =
        .error (.badRequest "Email is already verified")) := by
  have hufind : st.users.find? (fun x => x.email == email) = some user := by
    apply find?_eq_some_of_unique _ _ user hu (by simp [hmail])
    intro b hb hpb
    refine user_email_inj hwf hb hu ?_
    have : b.email = email := by simpa using hpb
    rw [this, hmail]
  constructor
  · constructor
    · rintro ⟨res, hres⟩
      cases hfind : st.otps.find? (fun x =>
          x.userId == user.id && x.code == code && x.type == OtpType.VERIFICATION &&
          !x.isUsed && decide (now < x.expiresAt)) with
      | none =>
        rw [verifyEmail_nomatch_step st now email code user hufind hver hfind] at hres
        simp at hres
      | some m =>
        have hmem := List.mem_of_find?_eq_some hfind
        have hprops := List.find?_some hfind
        simp only [Bool.and_eq_true, beq_iff_eq, Bool.not_eq_true', decide_eq_true_eq] at hprops
        exact ⟨m, hmem, hprops.1.1.1.1, hprops.1.1.1.2, hprops.1.1.2, hprops.1.2, hprops.2⟩
    · rintro ⟨x, hx, h1, h2, h3, h4, h5⟩
      have hsome : (st.otps.find? (fun x =>
          x.userId == user.id && x.code == code && x.type == OtpType.VERIFICATION &&
          !x.isUsed && decide (now < x.expiresAt))).isSome = true :=
        List.find?_isSome.mpr ⟨x, hx, by simp [h1, h2, h3, h4, h5]⟩
      rcases Option.isSome_iff_exists.mp hsome with ⟨m, hm⟩
      exact ⟨_, by rw [verifyEmail_success_step st now email code user m hufind hver hm]⟩
  · intro m hm
    have hstep := verifyEmail_success_step st now email code user m hufind hver hm
    constructor
    · have hotps : (verifyEmail st now email code).1.otps =
          st.otps.map (fun x => if x.id == m.id then { x with isUsed := true } else x) := by
        rw [hstep]
      rw [hotps]
      exact List.mem_map.mpr ⟨m, List.mem_of_find?_eq_some hm, by simp⟩
    · have husers : (verifyEmail st now email code).1.users =
          st.users.map (fun u => if u.id == user.id then { u with isEmailVerified := true } else u) := by
        rw [hstep]
      have hufind2 : ((verifyEmail st now email code).1.users).find? (fun x => x.email == email) =
          some { user with isEmailVerified := true } := by
        rw [husers, find?_map_pres _ _ _ (fun x => by rw [setVerified_email]), hufind]
        simp
      rw [verifyEmail_verified_step _ now email code _ hufind2 rfl]

/-- Validation behaviour of resetPassword: success iff a matching
PASSWORD_RESET row exists; a success consumes the matched row, so when that
row was the only match the second identical call fails with the
invalid-or-expired reset-code error. -/
theorem resetPassword_validate (st : Store) (hwf : st.WF) (env : Env) (now : Millis)
    (email : String) (code : Nat) (newPassword : String) (user : UserRow)
    (hu : user ∈ st.users) (hmail : user.email = email) :
    ((∃ res, (resetPassword st env now email code newPassword).2 = .ok res) ↔
      ∃ x ∈ st.otps, x.userId = user.id ∧ x.code = code ∧ x.type = OtpType.PASSWORD_RESET ∧
        x.isUsed = false ∧ now < x.expiresAt) ∧
    (∀ m, st.otps.find? (fun x =>
        x.userId == user.id && x.code == code && x.type == OtpType.PASSWORD_RESET &&
        !x.isUsed && decide (now < x.expiresAt)) = some m →
      (∀ x ∈ st.otps, x.userId = user.id → x.code = code → x.type = OtpType.PASSWORD_RESET →
        x.isUsed = false → now < x.expiresAt → x = m) →
      { m with isUsed := true } ∈ (resetPassword st env now email code newPassword).1.otps ∧
      (resetPassword (resetPassword st env now email code newPassword).1 env now email code newPassword).2 =
        .error (.badRequest "Invalid or expired reset code")) := by
  have hufind : st.users.find? (fun x => x.email == email) = some user := by
    apply find?_eq_some_of_unique _ _ user hu (by simp [hmail])
    intro b hb hpb
    refine user_email_inj hwf hb hu ?_
    have : b.email = email := by simpa using hpb
    rw [this, hmail]
  constructor
  · constructor
    · rintro ⟨res, hres⟩
      cases hfind : st.otps.find? (fun x =>
          x.userId == user.id && x.code == code && x.type == OtpType.PASSWORD_RESET &&
          !x.isUsed && decide (now < x.expiresAt)) with
      | none =>
        rw [resetPassword_nomatch_step st env now email code newPassword user hufind hfind] at hres
        simp at hres
      | some m =>
        have hmem := List.mem_of_find?_eq_some hfind
        have hprops := List.find?_some hfind
        simp only [Bool.and_eq_true, beq_iff_eq, Bool.not_eq_true', decide_eq_true_eq] at hprops
        exact ⟨m, hmem, hprops.1.1.1.1, hprops.1.1.1.2, hprops.1.1.2, hprops.1.2, hprops.2⟩
    · rintro ⟨x, hx, h1, h2, h3, h4, h5⟩
      have hsome : (st.otps.find? (fun x =>
          x.userId == user.id && x.code == code && x.type == OtpType.PASSWORD_RESET &&
          !x.isUsed && decide (now < x.expiresAt))).isSome = true :=
        List.find?_isSome.mpr ⟨x, hx, by simp [h1, h2, h3, h4, h5]⟩
      rcases Option.isSome_iff_exists.mp hsome with ⟨m, hm⟩
      exact ⟨_, by rw [resetPassword_success_step st env now email code newPassword user m hufind hm]⟩
  · intro m hm huniq
    have hstep := resetPassword_success_step st env now email code newPassword user m hufind hm
    have hotps : (resetPassword st env now email code newPassword).1.otps =
        st.otps.map (fun x => if x.id == m.id then { x with isUsed := true } else x) := by
      rw [hstep]
    constructor
    · rw [hotps]
      exact List.mem_map.mpr ⟨m, List.mem_of_find?_eq_some hm, by simp⟩
    · have husers : (resetPassword st env now email code newPassword).1.users =
          st.users.map (fun u => if u.id == user.id then { u with password := env.hash newPassword } else u) := by
        rw [hstep]
      have hufind2 : ((resetPassword st env now email code newPassword).1.users).find?
          (fun x => x.email == email) = some { user with password := env.hash newPassword } := by
        rw [husers, find?_map_pres _ _ _ (fun x => by rw [setPassword_email]), hufind]
        simp
      have hfn : ((resetPassword st env now email code newPassword).1.otps).find? (fun x =>
          x.userId == user.id && x.code == code && x.type == OtpType.PASSWORD_RESET &&
          !x.isUsed && decide (now < x.expiresAt)) = none := by
        rw [hotps, List.find?_eq_none]
        intro x hx
        rcases List.mem_map.mp hx with ⟨c, hc, hfc⟩
        subst hfc
        intro hpx
        by_cases hcm : (c.id == m.id) = true
        · simp [hcm] at hpx
        · have hcm2 : (c.id == m.id) = false := by
            cases hb : (c.id == m.id) with
            | true => exact absurd hb hcm
            | false => rfl
          simp only [hcm2, Bool.false_eq_true, if_false] at hpx
          simp only [Bool.and_eq_true, beq_iff_eq, Bool.not_eq_true', decide_eq_true_eq] at hpx
          have hce : c = m :=
            huniq c hc hpx.1.1.1.1 hpx.1.1.1.2 hpx.1.1.2 hpx.1.2 hpx.2
          rw [hce] at hcm2
          simp at hcm2
      rw [resetPassword_nomatch_step _ env now email code newPassword _ hufind2 hfn]

/-- Validation behaviour of the login-path verifyOtp: success iff a matching
row of any type exists; a success consumes the matched row, so when that row
was the only match the second identical call fails with the
invalid-or-expired OTP error. -/
theorem verifyOtp_validate (st : Store) (hwf : st.WF) (now : Millis)
    (email : String) (code : Nat) (ua ip : Option String) (user : UserRow)
    (hu : user ∈ st.users) (hmail : user.email = email) :
    ((∃ res, (verifyOtp st now email code ua ip).2 = .ok res) ↔
      ∃ x ∈ st.otps, x.userId = user.id ∧ x.code = code ∧
        x.isUsed = false ∧ now < x.expiresAt) ∧
    (∀ m, st.otps.find? (fun x =>
        x.userId == user.id && x.code == code && !x.isUsed && decide (now < x.expiresAt)) = some m →
      (∀ x ∈ st.otps, x.userId = user.id → x.code = code →
        x.isUsed = false → now < x.expiresAt → x = m) →
      { m with isUsed := true } ∈ (verifyOtp st now email code ua ip).1.otps ∧
      (verifyOtp (verifyOtp st now email code ua ip).1 now email code ua ip).2 =
        .error (.badRequest "Invalid or expired OTP")) := by
  have hufind : st.users.find? (fun x => x.email == email) = some user := by
    apply find?_eq_some_of_unique _ _ user hu (by simp [hmail])
    intro b hb hpb
    refine user_email_inj hwf hb hu ?_
    have : b.email = email := by simpa using hpb
    rw [this, hmail]
  constructor
  · constructor
    · rintro ⟨res, hres⟩
      cases hfind : st.otps.find? (fun x =>
          x.userId == user.id && x.code == code && !x.isUsed && decide (now < x.expiresAt)) with
      | none =>
        rw [verifyOtp_nomatch_step st now email code ua ip user hufind hfind] at hres
        simp at hres
      | some m =>
        have hmem := List.mem_of_find?_eq_some hfind
        have hprops := List.find?_some hfind
        simp only [Bool.and_eq_true, beq_iff_eq, Bool.not_eq_true', decide_eq_true_eq] at hprops
        exact ⟨m, hmem, hprops.1.1.1, hprops.1.1.2, hprops.1.2, hprops.2⟩
    · rintro ⟨x, hx, h1, h2, h3, h4⟩
      have hsome : (st.otps.find? (fun x =>
          x.userId == user.id && x.code == code && !x.isUsed && decide (now < x.expiresAt))).isSome = true :=
        List.find?_isSome.mpr ⟨x, hx, by simp [h1, h2, h3, h4]⟩
      rcases Option.isSome_iff_exists.mp hsome with ⟨m, hm⟩
      exact ⟨_, by rw [verifyOtp_success_step st now email code ua ip user m hufind hm]⟩
  · intro m hm huniq
    have hstep := verifyOtp_success_step st now email code ua ip user m hufind hm
    have hotps : (verifyOtp st now email code ua ip).1.otps =
        st.otps.map (fun x => if x.id == m.id then { x with isUsed := true } else x) := by
      rw [hstep]
    constructor
    · rw [hotps]
      exact List.mem_map.mpr ⟨m, List.mem_of_find?_eq_some hm, by simp⟩
    · have husers : (verifyOtp st now email code ua ip).1.users =
          st.users.map (fun u => if u.id == user.id then { u with lastLoginAt := some now } else u) := by
        rw [hstep]
      have hufind2 : ((verifyOtp st now email code ua ip).1.users).find?
          (fun x => x.email == email) = some { user with lastLoginAt := some now } := by
        rw [husers, find?_map_pres _ _ _ (fun x => by rw [setLastLogin_email]), hufind]
        simp
      have hfn : ((verifyOtp st now email code ua ip).1.otps).find? (fun x =>
          x.userId == user.id && x.code == code && !x.isUsed && decide (now < x.expiresAt)) = none := by
        rw [hotps, List.find?_eq_none]
        intro x hx
        rcases List.mem_map.mp hx with ⟨c, hc, hfc⟩
        subst hfc
        intro hpx
        by_cases hcm : (c.id == m.id) = true
        · simp [hcm] at hpx
        · have hcm2 : (c.id == m.id) = false := by
            cases hb : (c.id == m.id) with
            | true => exact absurd hb hcm
            | false => rfl
          simp only [hcm2, Bool.false_eq_true, if_false] at hpx
          simp only [Bool.and_eq_true, beq_iff_eq, Bool.not_eq_true', decide_eq_true_eq] at hpx
          have hce : c = m :=
            huniq c hc hpx.1.1.1 hpx.1.1.2 hpx.1.2 hpx.2
          rw [hce] at hcm2
          simp at hcm2
      rw [verifyOtp_nomatch_step _ now email code ua ip _ hufind2 hfn]

/-- Claim C3 (amended): OTP validation (verifyEmail, resetPassword,
verifyOtp) succeeds, under the user guards of each path, exactly when some
stored OTP row matches — same userId, same code, isUsed = false, expiresAt
strictly after now, and the matching type on the type-scoped paths
verifyEmail and resetPassword — so an expired code never validates; on
success the matched row is marked isUsed = true, so validating the same code
a second time fails: resetPassword and verifyOtp (whose consumed row was the
only match) fail with their invalid-or-expired-code errors, while verifyEmail
fails with the already-verified error because its success also marked the
user verified. -/
theorem otp_validation_spec (st : Store) (hwf : st.WF) (now : Millis)
    (email : String) (code : Nat) (ua ip : Option String)
    (env : Env) (newPassword : String) (user : UserRow)
    (hu : user ∈ st.users) (hmail : user.email = email) :
    (user.isEmailVerified = false →
      ((∃ res, (verifyEmail st now email code).2 = .ok res) ↔
        ∃ x ∈ st.otps, x.userId = user.id ∧ x.code = code ∧ x.type = OtpType.VERIFICATION ∧
          x.isUsed = false ∧ now < x.expiresAt)) ∧
    (user.isEmailVerified = false →
      ∀ m, st.otps.find? (fun x =>
          x.userId == user.id && x.code == code && x.type == OtpType.VERIFICATION &&
          !x.isUsed && decide (now < x.expiresAt)) = some m →
        { m with isUsed := true } ∈ (verifyEmail st now email code).1.otps ∧
        (verifyEmail (verifyEmail st now email code).1 now email code).2 =
          .error (.badRequest "Email is already verified")) ∧
    ((∃ res, (resetPassword st env now email code newPassword).2 = .ok res) ↔
      ∃ x ∈ st.otps, x.userId = user.id ∧ x.code = code ∧ x.type = OtpType.PASSWORD_RESET ∧
        x.isUsed = false ∧ now < x.expiresAt) ∧
    (∀ m, st.otps.find? (fun x =>
        x.userId == user.id && x.code == code && x.type == OtpType.PASSWORD_RESET &&
        !x.isUsed && decide (now < x.expiresAt)) = some m →
      (∀ x ∈ st.otps, x.userId = user.id → x.code = code → x.type = OtpType.PASSWORD_RESET →
        x.isUsed = false → now < x.expiresAt → x = m) →
      { m with isUsed := true } ∈ (resetPassword st env now email code newPassword).1.otps ∧
      (resetPassword (resetPassword st env now email code newPassword).1 env now email code newPassword).2 =
        .error (.badRequest "Invalid or expired reset code")) ∧
    ((∃ res, (verifyOtp st now email code ua ip).2 = .ok res) ↔
      ∃ x ∈ st.otps, x.userId = user.id ∧ x.code = code ∧
        x.isUsed = false ∧ now < x.expiresAt) ∧
    (∀ m, st.otps.find? (fun x =>
        x.userId == user.id && x.code == code && !x.isUsed && decide (now < x.expiresAt)) = some m →
      (∀ x ∈ st.otps, x.userId = user.id → x.code = code →
        x.isUsed = false → now < x.expiresAt → x = m) →
      { m with isUsed := true } ∈ (verifyOtp st now email code ua ip).1.otps ∧
      (verifyOtp (verifyOtp st now email code ua ip).1 now email code ua ip).2 =
        .error (.badRequest "Invalid or expired OTP")) :=
  ⟨fun hver => (verifyEmail_validate st hwf now email code user hu hmail hver).1,
   fun hver => (verifyEmail_validate st hwf now email code user hu hmail hver).2,
   (resetPassword_validate st hwf env now email code newPassword user hu hmail).1,
   (resetPassword_validate st hwf env now email code newPassword user hu hmail).2,
   (verifyOtp_validate st hwf now email code ua ip user hu hmail).1,
   (verifyOtp_validate st hwf now email code ua ip user hu hmail).2⟩

/-- Witness for C3 (amended) at a concrete input: the sample VERIFICATION
code validates on the login path of the sample store. -/
theorem otp_validation_spec_witness :
    ∃ res, (verifyOtp otpStoreV 5 "a@x.com" 123456 none none).2 = .ok res :=
  ((otp_validation_spec otpStoreV (by decide) 5 "a@x.com" 123456 none none idEnv "N"
      otpUser (by decide) rfl).2.2.2.2.1).mpr
    ⟨otpRowV, by decide, rfl, rfl, rfl, by decide⟩

/-- At-most-one-valid invariant on a list of OTP rows: any two unused,
unexpired rows of the same user and type are the same row. -/
def OtpListInv (otps : List OtpRow) (now : Millis) : Prop :=
  ∀ o1 ∈ otps, ∀ o2 ∈ otps,
    o1.isUsed = false → now < o1.expiresAt →
    o2.isUsed = false → now < o2.expiresAt →
    o1.userId = o2.userId → o1.type = o2.type → o1 = o2

instance (otps : List OtpRow) (now : Millis) : Decidable (OtpListInv otps now) := by
  unfold OtpListInv
  infer_instance

/-- At-most-one-valid invariant on the store. -/
def OtpInv (st : Store) (now : Millis) : Prop :=
  OtpListInv st.otps now

instance (st : Store) (now : Millis) : Decidable (OtpInv st now) := by
  unfold OtpInv
  infer_instance

/-- Invalidating a scope that blocks every live row clashing with the new
row, then inserting the new row, preserves the at-most-one invariant. -/
theorem otp_inv_invalidate_insert (otps : List OtpRow) (now : Millis)
    (cond : OtpRow → Bool) (new : OtpRow)
    (hinv : OtpListInv otps now)
    (hblock : ∀ c ∈ otps, c.isUsed = false → now < c.expiresAt →
      c.userId = new.userId → c.type = new.type → cond c = true) :
    OtpListInv ((otps.map (fun o => if cond o then { o with isUsed := true } else o)) ++ [new]) now := by
  have hfix : ∀ c, ((if cond c then { c with isUsed := true } else c) : OtpRow).isUsed = false →
      cond c = false ∧ (if cond c then { c with isUsed := true } else c) = c := by
    intro c hc
    by_cases hb : cond c = true
    · rw [hb] at hc
      simp at hc
    · have hb' : cond c = false := by
        cases hx : cond c with
        | true => exact absurd hx hb
        | false => rfl
      rw [hb']
      simp
  intro o1 h1 o2 h2 hu1 he1 hu2 he2 huid htype
  rcases List.mem_append.mp h1 with h1m | h1n
  · rcases List.mem_append.mp h2 with h2m | h2n
    · rcases List.mem_map.mp h1m with ⟨c1, hc1, hf1⟩
      rcases List.mem_map.mp h2m with ⟨c2, hc2, hf2⟩
      have hx1 := hfix c1 (by rw [hf1]; exact hu1)
      have hx2 := hfix c2 (by rw [hf2]; exact hu2)
      have ho1 : o1 = c1 := by rw [← hf1, hx1.2]
      have ho2 : o2 = c2 := by rw [← hf2, hx2.2]
      rw [ho1, ho2]
      apply hinv c1 hc1 c2 hc2
      · rw [← ho1]; exact hu1
      · rw [← ho1]; exact he1
      · rw [← ho2]; exact hu2
      · rw [← ho2]; exact he2
      · rw [← ho1, ← ho2]; exact huid
      · rw [← ho1, ← ho2]; exact htype
    · exfalso
      have h2n' : o2 = new := List.mem_singleton.mp h2n
      rcases List.mem_map.mp h1m with ⟨c1, hc1, hf1⟩
      have hx1 := hfix c1 (by rw [hf1]; exact hu1)
      have ho1 : o1 = c1 := by rw [← hf1, hx1.2]
      have hb := hblock c1 hc1 (by rw [← ho1]; exact hu1) (by rw [← ho1]; exact he1)
        (by rw [← ho1, huid, h2n']) (by rw [← ho1, htype, h2n'])
      rw [hx1.1] at hb
      simp at hb
  · rcases List.mem_append.mp h2 with h2m | h2n
    · exfalso
      have h1n' : o1 = new := List.mem_singleton.mp h1n
      rcases List.mem_map.mp h2m with ⟨c2, hc2, hf2⟩
      have hx2 := hfix c2 (by rw [hf2]; exact hu2)
      have ho2 : o2 = c2 := by rw [← hf2, hx2.2]
      have hb := hblock c2 hc2 (by rw [← ho2]; exact hu2) (by rw [← ho2]; exact he2)
        (by rw [← ho2, ← huid, h1n']) (by rw [← ho2, ← htype, h1n'])
      rw [hx2.1] at hb
      simp at hb
    · rw [List.mem_singleton.mp h1n, List.mem_singleton.mp h2n]

/-- Inserting a row for a fresh user preserves the at-most-one invariant. -/
theorem otp_inv_insert_fresh (otps : List OtpRow) (now : Millis) (new : OtpRow)
    (hinv : OtpListInv otps now)
    (hfresh : ∀ c ∈ otps, c.userId ≠ new.userId) :
    OtpListInv (otps ++ [new]) now := by
  intro o1 h1 o2 h2 hu1 he1 hu2 he2 huid htype
  rcases List.mem_append.mp h1 with h1m | h1n
  · rcases List.mem_append.mp h2 with h2m | h2n
    · exact hinv o1 h1m o2 h2m hu1 he1 hu2 he2 huid htype
    · exact absurd (by rw [huid, List.mem_singleton.mp h2n]) (hfresh o1 h1m)
  · rcases List.mem_append.mp h2 with h2m | h2n
    · exfalso
      have h1n' : o1 = new := List.mem_singleton.mp h1n
      apply hfresh o2 h2m
      rw [← huid, h1n']
    · rw [List.mem_singleton.mp h1n, List.mem_singleton.mp h2n]

/-- Claim C4: each OTP-issuing operation — sendOtp, forgotPassword,
resendVerificationEmail and register — preserves the invariant that at most
one unused, unexpired OTP per (user, type) pair exists: prior unused OTPs of
the relevant scope are marked used before the new row is created (and a
freshly registered user has no prior rows), on every path of each operation,
including the paths on which the notification email fails after the rows
were written. -/
theorem otp_issue_invariant (st : Store) (hwf : st.WF) (env : Env) (now : Millis)
    (email : String) (dto : RegisterDto) (hinv : OtpInv st now) :
    OtpInv (register st env now dto).1 now ∧
    OtpInv (resendVerificationEmail st env now email).1 now ∧
    OtpInv (forgotPassword st env now email).1 now ∧
    OtpInv (sendOtp st env now email).1 now := by
  refine ⟨?_, ?_, ?_, ?_⟩
  · cases hfind : st.users.find? (fun u => u.email == dto.email) with
    | some u =>
      have hpost : (register st env now dto).1 = st := by
        unfold register
        simp only [hfind]
      rw [hpost]
      exact hinv
    | none =>
      have hotps : (register st env now dto).1.otps =
          st.otps ++ [{ id := st.nextOtpId, code := genOtpCode env.rand,
                        expiresAt := now + otpTtlMs, isUsed := false,
                        type := OtpType.VERIFICATION, userId := st.nextUserId,
                        createdAt := now }] := by
        unfold register
        simp only [hfind]
        by_cases he : env.emailOk <;> simp [he, newUserRow]
      unfold OtpInv
      rw [hotps]
      apply otp_inv_insert_fresh _ _ _ hinv
      intro c hc
      have hlt := (hwf.2.2.2.2.1 c hc).2
      show c.userId ≠ st.nextUserId
      omega
  · cases hfind : st.users.find? (fun u => u.email == email) with
    | none =>
      have hpost : (resendVerificationEmail st env now email).1 = st := by
        unfold resendVerificationEmail
        simp only [hfind]
      rw [hpost]
      exact hinv
    | some user =>
      cases hver : user.isEmailVerified with
      | true =>
        have hpost : (resendVerificationEmail st env now email).1 = st := by
          unfold resendVerificationEmail
          simp only [hfind]
          simp only [hver, if_true]
        rw [hpost]
        exact hinv
      | false =>
        have hotps : (resendVerificationEmail st env now email).1.otps =
            (st.otps.map (fun o =>
              if o.userId == user.id && o.type == OtpType.VERIFICATION && !o.isUsed
              then { o with isUsed := true } else o)) ++
            [{ id := st.nextOtpId, code := genOtpCode env.rand,
               expiresAt := now + otpTtlMs, isUsed := false,
               type := OtpType.VERIFICATION, userId := user.id, createdAt := now }] := by
          unfold resendVerificationEmail
          simp only [hfind]
          simp only [hver, Bool.false_eq_true, if_false]
          by_cases he : env.emailOk <;> simp [he]
        unfold OtpInv
        rw [hotps]
        apply otp_inv_invalidate_insert _ _ _ _ hinv
        intro c hc hcu hce hcuid hctype
        have hcuid' : c.userId = user.id := hcuid
        have hctype' : c.type = OtpType.VERIFICATION := hctype
        simp [hcuid', hctype', hcu]
  · cases hfind : st.users.find? (fun u => u.email == email) with
    | none =>
      have hpost : (forgotPassword st env now email).1 = st := by
        unfold forgotPassword
        simp only [hfind]
      rw [hpost]
      exact hinv
    | some user =>
      have hotps : (forgotPassword st env now email).1.otps =
          (st.otps.map (fun o =>
            if o.userId == user.id && o.type == OtpType.PASSWORD_RESET && !o.isUsed
            then { o with isUsed := true } else o)) ++
          [{ id := st.nextOtpId, code := genOtpCode env.rand,
             expiresAt := now + otpTtlMs, isUsed := false,
             type := OtpType.PASSWORD_RESET, userId := user.id, createdAt := now }] := by
        unfold forgotPassword
        simp only [hfind]
        by_cases he : env.emailOk <;> simp [he]
      unfold OtpInv
      rw [hotps]
      apply otp_inv_invalidate_insert _ _ _ _ hinv
      intro c hc hcu hce hcuid hctype
      have hcuid' : c.userId = user.id := hcuid
      have hctype' : c.type = OtpType.PASSWORD_RESET := hctype
      simp [hcuid', hctype', hcu]
  · cases hfind : st.users.find? (fun u => u.email == email) with
    | none =>
      have hpost : (sendOtp st env now email).1 = st := by
        unfold sendOtp
        simp only [hfind]
      rw [hpost]
      exact hinv
    | some user =>
      have hotps : (sendOtp st env now email).1.otps =
          (st.otps.map (fun o =>
            if o.userId == user.id && !o.isUsed
            then { o with isUsed := true } else o)) ++
          [{ id := st.nextOtpId, code := genOtpCode env.rand,
             expiresAt := now + otpTtlMs, isUsed := false,
             type := OtpType.LOGIN, userId := user.id, createdAt := now }] := by
        unfold sendOtp
        simp only [hfind]
        by_cases he : env.emailOk <;> simp [he]
      unfold OtpInv
      rw [hotps]
      apply otp_inv_invalidate_insert _ _ _ _ hinv
      intro c hc hcu hce hcuid hctype
      have hcuid' : c.userId = user.id := hcuid
      simp [hcuid', hcu]

/-- Sample registration input for the witnesses. -/
def sampleDto : RegisterDto :=
  { email := "new@x.com", password := "Pw1@aaaa", firstName := "N", lastName := "U" }

/-- Witness for C4 at a concrete input: all four issuing operations preserve
the invariant on the sample store. -/
theorem otp_issue_invariant_witness :
    OtpInv (register otpStore idEnv 5 sampleDto).1 5 ∧
    OtpInv (resendVerificationEmail otpStore idEnv 5 "a@x.com").1 5 ∧
    OtpInv (forgotPassword otpStore idEnv 5 "a@x.com").1 5 ∧
    OtpInv (sendOtp otpStore idEnv 5 "a@x.com").1 5 :=
  otp_issue_invariant otpStore (by decide) idEnv 5 "a@x.com" sampleDto (by decide)

/-- Counterexample to C5 as stated: registering an email that already exists
is rejected with UnauthorizedException('User already exists') — which is not
a Conflict error. -/
theorem register_conflict_counterexample :
    register sampleStore1 idEnv 5
        { email := "a@x.com", password := "p", firstName := "A", lastName := "B" } =
      (sampleStore1, .error (.unauthorized "User already exists")) ∧
    (AuthError.unauthorized "User already exists").isConflict = false :=
  ⟨rfl, rfl⟩

/-- Claim C5 (amended): register rejects with the Unauthorized 'User already
exists' error — not a Conflict error — when a user with the given email
exists; otherwise it hashes the password, creates an unverified user,
persists a 6-digit VERIFICATION OTP expiring 10 minutes (600000 ms) from
issuance, sends it, and returns a user projection that carries every user
field except the password. -/
theorem register_spec (st : Store) (env : Env) (now : Millis) (dto : RegisterDto) :
    ((∃ u ∈ st.users, u.email = dto.email) →
      register st env now dto = (st, .error (.unauthorized "User already exists"))) ∧
    (st.users.find? (fun u => u.email == dto.email) = none →
      env.emailOk = true →
      register st env now dto =
        ({ st with users := st.users ++ [newUserRow st env dto],
                   otps := st.otps ++
                     [{ id := st.nextOtpId, code := genOtpCode env.rand,
                        expiresAt := now + otpTtlMs, isUsed := false,
                        type := OtpType.VERIFICATION, userId := st.nextUserId,
                        createdAt := now }],
                   nextUserId := st.nextUserId + 1, nextOtpId := st.nextOtpId + 1 },
         .ok { message := "User registered successfully. Please check your email for the verification code.",
               user := sanitizeUser (newUserRow st env dto) }) ∧
      (newUserRow st env dto).password = env.hash dto.password ∧
      (newUserRow st env dto).isEmailVerified = false ∧
      100000 ≤ genOtpCode env.rand ∧ genOtpCode env.rand ≤ 999999 ∧
      sanitizeUser (newUserRow st env dto) =
        { id := st.nextUserId, email := dto.email, firstName := dto.firstName,
          lastName := dto.lastName, role := Role.CUSTOMER,
          isEmailVerified := false, lastLoginAt := none }) := by
  constructor
  · rintro ⟨u, hu, hmail⟩
    have hsome : (st.users.find? (fun x => x.email == dto.email)).isSome = true :=
      List.find?_isSome.mpr ⟨u, hu, by simp [hmail]⟩
    rcases Option.isSome_iff_exists.mp hsome with ⟨u', hfind⟩
    unfold register
    simp only [hfind]
  · intro hfind hok
    refine ⟨?_, rfl, rfl, ?_, ?_, rfl⟩
    · unfold register
      simp only [hfind]
      simp only [hok, if_true]
      rfl
    · unfold genOtpCode
      omega
    · unfold genOtpCode
      have := Nat.mod_lt env.rand (y := 900000) (by omega)
      omega

/-- Witness for C5 (amended) at a concrete input: registering a fresh email
on the empty store succeeds with the sanitized projection. -/
theorem register_spec_witness :
    register emptyStore idEnv 5 sampleDto =
      ({ emptyStore with
           users := emptyStore.users ++ [newUserRow emptyStore idEnv sampleDto],
           otps := emptyStore.otps ++
             [{ id := emptyStore.nextOtpId, code := genOtpCode idEnv.rand,
                expiresAt := 5 + otpTtlMs, isUsed := false,
                type := OtpType.VERIFICATION, userId := emptyStore.nextUserId,
                createdAt := 5 }],
           nextUserId := emptyStore.nextUserId + 1, nextOtpId := emptyStore.nextOtpId + 1 },
       .ok { message := "User registered successfully. Please check your email for the verification code.",
             user := sanitizeUser (newUserRow emptyStore idEnv sampleDto) }) ∧
    (newUserRow emptyStore idEnv sampleDto).password = idEnv.hash sampleDto.password ∧
    (newUserRow emptyStore idEnv sampleDto).isEmailVerified = false ∧
    100000 ≤ genOtpCode idEnv.rand ∧ genOtpCode idEnv.rand ≤ 999999 ∧
    sanitizeUser (newUserRow emptyStore idEnv sampleDto) =
      { id := emptyStore.nextUserId, email := sampleDto.email,
        firstName := sampleDto.firstName, lastName := sampleDto.lastName,
        role := Role.CUSTOMER, isEmailVerified := false, lastLoginAt := none } :=
  (register_spec emptyStore idEnv 5 sampleDto).2 (by decide) rfl

/-- Environment whose SMTP transport fails. -/
def failEnv : Env := { hash := fun s => s, rand := 0, emailOk := false }

/-- Claim C9: when sending the notification email fails during register (for
a fresh email) or during forgotPassword (for an existing user), the operation
raises the failure to the caller instead of returning the success message,
while the OTP row has already been persisted in the resulting store. -/
theorem email_failure_raises (st : Store) (env : Env) (now : Millis)
    (dto : RegisterDto) (email : String) (hfail : env.emailOk = false) :
    (st.users.find? (fun u => u.email == dto.email) = none →
      (register st env now dto).2 = .error (.internal "Failed to send verification email") ∧
      ∃ o ∈ (register st env now dto).1.otps,
        o.userId = st.nextUserId ∧ o.type = OtpType.VERIFICATION ∧
        o.code = genOtpCode env.rand ∧ o.expiresAt = now + otpTtlMs ∧ o.isUsed = false) ∧
    (∀ user, st.users.find? (fun u => u.email == email) = some user →
      (forgotPassword st env now email).2 = .error (.internal "Failed to send password reset email") ∧
      ∃ o ∈ (forgotPassword st env now email).1.otps,
        o.userId = user.id ∧ o.type = OtpType.PASSWORD_RESET ∧
        o.code = genOtpCode env.rand ∧ o.expiresAt = now + otpTtlMs ∧ o.isUsed = false) := by
  constructor
  · intro hfind
    have h2 : (register st env now dto).2 = .error (.internal "Failed to send verification email") := by
      unfold register
      simp only [hfind]
      simp only [hfail, Bool.false_eq_true, if_false]
    have h1 : (register st env now dto).1.otps = st.otps ++
        [{ id := st.nextOtpId, code := genOtpCode env.rand,
           expiresAt := now + otpTtlMs, isUsed := false,
           type := OtpType.VERIFICATION, userId := st.nextUserId, createdAt := now }] := by
      unfold register
      simp only [hfind]
      simp only [hfail, Bool.false_eq_true, if_false]
      simp [newUserRow]
    have hmem : ({ id := st.nextOtpId, code := genOtpCode env.rand,
                   expiresAt := now + otpTtlMs, isUsed := false,
                   type := OtpType.VERIFICATION, userId := st.nextUserId,
                   createdAt := now } : OtpRow) ∈
        (register st env now dto).1.otps := by
      rw [h1]
      exact List.mem_append_right _ (List.mem_singleton.mpr rfl)
    exact ⟨h2, ⟨_, hmem, rfl, rfl, rfl, rfl, rfl⟩⟩
  · intro user hfind
    have h2 : (forgotPassword st env now email).2 =
        .error (.internal "Failed to send password reset email") := by
      unfold forgotPassword
      simp only [hfind]
      simp only [hfail, Bool.false_eq_true, if_false]
    have h1 : (forgotPassword st env now email).1.otps =
        (st.otps.map (fun o =>
          if o.userId == user.id && o.type == OtpType.PASSWORD_RESET && !o.isUsed
          then { o with isUsed := true } else o)) ++
        [{ id := st.nextOtpId, code := genOtpCode env.rand,
           expiresAt := now + otpTtlMs, isUsed := false,
           type := OtpType.PASSWORD_RESET, userId := user.id, createdAt := now }] := by
      unfold forgotPassword
      simp only [hfind]
      simp only [hfail, Bool.false_eq_true, if_false]
    have hmem : ({ id := st.nextOtpId, code := genOtpCode env.rand,
                   expiresAt := now + otpTtlMs, isUsed := false,
                   type := OtpType.PASSWORD_RESET, userId := user.id,
                   createdAt := now } : OtpRow) ∈
        (forgotPassword st env now email).1.otps := by
      rw [h1]
      exact List.mem_append_right _ (List.mem_singleton.mpr rfl)
    exact ⟨h2, ⟨_, hmem, rfl, rfl, rfl, rfl, rfl⟩⟩

/-- Witness for C9 at concrete inputs: with a failing SMTP transport,
register on a fresh email and forgotPassword on the registered email both
raise, with the OTP rows persisted. -/
theorem email_failure_raises_witness :
    ((otpStore.users.find? (fun u => u.email == sampleDto.email) = none →
      (register otpStore failEnv 5 sampleDto).2 = .error (.internal "Failed to send verification email") ∧
      ∃ o ∈ (register otpStore failEnv 5 sampleDto).1.otps,
        o.userId = otpStore.nextUserId ∧ o.type = OtpType.VERIFICATION ∧
        o.code = genOtpCode failEnv.rand ∧ o.expiresAt = 5 + otpTtlMs ∧ o.isUsed = false) ∧
    (∀ user, otpStore.users.find? (fun u => u.email == "a@x.com") = some user →
      (forgotPassword otpStore failEnv 5 "a@x.com").2 = .error (.internal "Failed to send password reset email") ∧
      ∃ o ∈ (forgotPassword otpStore failEnv 5 "a@x.com").1.otps,
        o.userId = user.id ∧ o.type = OtpType.PASSWORD_RESET ∧
        o.code = genOtpCode failEnv.rand ∧ o.expiresAt = 5 + otpTtlMs ∧ o.isUsed = false)) :=
  email_failure_raises otpStore failEnv 5 sampleDto "a@x.com" rfl

end AuthSpec
